import Mathlib

/-!
Verification development for the tradeassist technical-indicator engine and
confluence scoring pipeline.

The JavaScript sources are shallowly embedded:
* JS numbers are modelled by `ℚ` (exact arithmetic; the claims checked here do
  not depend on floating-point rounding).
* JS `null` entries in indicator arrays are modelled by `Option ℚ`.
* `Math.round` is modelled by `jsRound` (round half toward +∞, the JS rule).
* `Math.sqrt` is modelled by `Rat.sqrt` (a computable square-root
  approximation on `ℚ`; the claims settled here depend only on the sign of the
  result and on `sqrt 0 = 0`, which `Rat.sqrt` shares with `Math.sqrt`).
* `x.toFixed(d)` is modelled by its numeric content `jsRound (x * 10^d) / 10^d`.
* JS relational operators applied to possibly-`null` operands coerce `null`
  to `0`; `jsGTo`/`jsLEo` model this.
* The string `'N/A'` stored in a numeric field is modelled as `none`.
-/

/-- JS `Math.round`: round half toward positive infinity. -/
def jsRound (q : ℚ) : ℤ := ⌊q + 1/2⌋

/-- JS `arr[i]` on a number array (all uses in the source are in bounds). -/
def getQ (l : List ℚ) (i : ℕ) : ℚ := l.getD i 0

/-- JS `arr[i]` on a nullable number array: out of range behaves like `null`. -/
def getO (l : List (Option ℚ)) (i : ℕ) : Option ℚ := l.getD i none

/-- JS `a > b` where either side may be `null` (coerced to `0`). -/
def jsGTo (a b : Option ℚ) : Bool := decide (b.getD 0 < a.getD 0)

/-- JS `a <= b` where either side may be `null` (coerced to `0`). -/
def jsLEo (a b : Option ℚ) : Bool := decide (a.getD 0 ≤ b.getD 0)

/-- JS `a - b` on two nullable numbers, `null` if either side is `null`
(used where the source guards with `!== null` before subtracting). -/
def optSub (a b : Option ℚ) : Option ℚ :=
  match a, b with
  | some x, some y => some (x - y)
  | _, _ => none

/-- Numeric content of JS `x.toFixed(2)`. -/
def toFixed2 (q : ℚ) : ℚ := (jsRound (q * 100) : ℚ) / 100

/-- Numeric content of JS `x.toFixed(3)`. -/
def toFixed3 (q : ℚ) : ℚ := (jsRound (q * 1000) : ℚ) / 1000

/-- SignalVector: the record built by `getIndicatorSignals` in
`src/js/signals.js`, one sub-signal per indicator key. -/
structure SignalVector where
  rsi : ℚ
  macdCross : ℚ
  macdDivergence : ℚ
  bollingerBands : ℚ
  stochastic : ℚ
  emaCross : ℚ
  adxTrend : ℚ
  volumeOBV : ℚ
deriving Repr, DecidableEq

/-- Sum of the `WEIGHTS` table in `src/js/signals.js`
(rsi 15, macdCross 20, macdDivergence 15, bollingerBands 10, stochastic 10,
emaCross 15, adxTrend 10, volumeOBV 5). -/
def TOTAL_WEIGHT : ℚ := 15 + 20 + 15 + 10 + 10 + 15 + 10 + 5

/-- `weightedSum` accumulated by the loop in `calculateConfluenceScore`:
each sub-signal times its weight from `WEIGHTS`. -/
def weightedSum (s : SignalVector) : ℚ :=
  s.rsi * 15 + s.macdCross * 20 + s.macdDivergence * 15 + s.bollingerBands * 10 +
    s.stochastic * 10 + s.emaCross * 15 + s.adxTrend * 10 + s.volumeOBV * 5

/-- `calculateConfluenceScore` from `src/js/signals.js`:
`Math.round((weightedSum / TOTAL_WEIGHT) * 100)`. -/
def calculateConfluenceScore (s : SignalVector) : ℤ :=
  jsRound (weightedSum s / TOTAL_WEIGHT * 100)

/-- The `action` strings returned by `getSignalType`. -/
inductive SignalAction where
  | strongBuy
  | buy
  | neutral
  | sell
  | strongSell
deriving Repr, DecidableEq

/-- The `level` strings returned by `getSignalType`. -/
inductive SignalLevel where
  | strong
  | moderate
  | neutral
deriving Repr, DecidableEq

/-- The record returned by `getSignalType`. -/
structure SignalType where
  action : SignalAction
  emoji : String
  color : String
  level : SignalLevel
deriving Repr, DecidableEq

/-- `getSignalType` from `src/js/signals.js`. -/
def getSignalType (score : ℤ) : SignalType :=
  if 60 ≤ score then ⟨.strongBuy, "🟢", "#00ff88", .strong⟩
  else if 30 ≤ score then ⟨.buy, "🟡", "#ffdd00", .moderate⟩
  else if -30 < score then ⟨.neutral, "⚪", "#888888", .neutral⟩
  else if -60 < score then ⟨.sell, "🟡", "#ff8800", .moderate⟩
  else ⟨.strongSell, "🔴", "#ff3344", .strong⟩

theorem jsRound_bounds (B : ℤ) (q : ℚ) (h1 : -(B : ℚ) ≤ q) (h2 : q ≤ (B : ℚ)) :
    -B ≤ jsRound q ∧ jsRound q ≤ B := by
  rw [jsRound]
  constructor
  · exact Int.le_floor.mpr (by push_cast; linarith)
  · have : ⌊q + 1/2⌋ < B + 1 := Int.floor_lt.mpr (by push_cast; linarith)
    omega

/-- C1: for every signal vector mapping the eight indicator keys to values in
`[-1, 1]`, `calculateConfluenceScore` (weights 15, 20, 15, 10, 10, 15, 10, 5;
total 100; weighted sum divided by the total weight, scaled by 100 and
rounded) returns an integer in `[-100, 100]`. -/
theorem calculateConfluenceScore_bounded (s : SignalVector)
    (h1 : -1 ≤ s.rsi ∧ s.rsi ≤ 1)
    (h2 : -1 ≤ s.macdCross ∧ s.macdCross ≤ 1)
    (h3 : -1 ≤ s.macdDivergence ∧ s.macdDivergence ≤ 1)
    (h4 : -1 ≤ s.bollingerBands ∧ s.bollingerBands ≤ 1)
    (h5 : -1 ≤ s.stochastic ∧ s.stochastic ≤ 1)
    (h6 : -1 ≤ s.emaCross ∧ s.emaCross ≤ 1)
    (h7 : -1 ≤ s.adxTrend ∧ s.adxTrend ≤ 1)
    (h8 : -1 ≤ s.volumeOBV ∧ s.volumeOBV ≤ 1) :
    -100 ≤ calculateConfluenceScore s ∧ calculateConfluenceScore s ≤ 100 := by
  have hq : weightedSum s / TOTAL_WEIGHT * 100 = weightedSum s := by
    rw [TOTAL_WEIGHT]; ring
  have hup : weightedSum s ≤ 100 := by
    rw [weightedSum]; nlinarith [h1.2, h2.2, h3.2, h4.2, h5.2, h6.2, h7.2, h8.2]
  have hlo : -100 ≤ weightedSum s := by
    rw [weightedSum]; nlinarith [h1.1, h2.1, h3.1, h4.1, h5.1, h6.1, h7.1, h8.1]
  have hb := jsRound_bounds 100 (weightedSum s / TOTAL_WEIGHT * 100)
    (by rw [hq]; push_cast; linarith) (by rw [hq]; push_cast; linarith)
  simp only [calculateConfluenceScore]
  exact ⟨hb.1, hb.2⟩

theorem calculateConfluenceScore_bounded_witness :
    -100 ≤ calculateConfluenceScore ⟨1, 1, 1, 1, 1, 1, 1, 1⟩ ∧
      calculateConfluenceScore ⟨1, 1, 1, 1, 1, 1, 1, 1⟩ ≤ 100 :=
  calculateConfluenceScore_bounded ⟨1, 1, 1, 1, 1, 1, 1, 1⟩
    (by norm_num) (by norm_num) (by norm_num) (by norm_num)
    (by norm_num) (by norm_num) (by norm_num) (by norm_num)

/-- C2: `getSignalType` partitions the integer score axis with no gaps or
overlaps: `score ≥ 60 ↔ STRONG BUY`, `score ∈ [30, 60) ↔ BUY`,
`score ∈ (-30, 30) ↔ NEUTRAL`, `score ∈ (-60, -30] ↔ SELL`,
`score ≤ -60 ↔ STRONG SELL`; in particular `30 ↦ BUY`, `29 ↦ NEUTRAL`,
`-30 ↦ SELL`, `-60 ↦ STRONG SELL`. -/
theorem getSignalType_partition :
    (∀ score : ℤ,
      ((getSignalType score).action = .strongBuy ↔ 60 ≤ score) ∧
      ((getSignalType score).action = .buy ↔ 30 ≤ score ∧ score < 60) ∧
      ((getSignalType score).action = .neutral ↔ -30 < score ∧ score < 30) ∧
      ((getSignalType score).action = .sell ↔ -60 < score ∧ score ≤ -30) ∧
      ((getSignalType score).action = .strongSell ↔ score ≤ -60)) ∧
    (getSignalType 30).action = .buy ∧
    (getSignalType 29).action = .neutral ∧
    (getSignalType (-30)).action = .sell ∧
    (getSignalType (-60)).action = .strongSell := by
  refine ⟨fun score => ?_, by decide, by decide, by decide, by decide⟩
  rw [getSignalType]
  split
  · refine ⟨⟨fun _ => by omega, fun _ => rfl⟩, ?_, ?_, ?_, ?_⟩ <;>
      exact ⟨fun h => by simp_all, fun h => by omega⟩
  · split
    · refine ⟨⟨fun h => by simp_all, fun h => by omega⟩, ⟨fun _ => by omega, fun _ => rfl⟩,
        ?_, ?_, ?_⟩ <;> exact ⟨fun h => by simp_all, fun h => by omega⟩
    · split
      · refine ⟨⟨fun h => by simp_all, fun h => by omega⟩, ⟨fun h => by simp_all, fun h => by omega⟩,
          ⟨fun _ => by omega, fun _ => rfl⟩, ?_, ?_⟩ <;>
          exact ⟨fun h => by simp_all, fun h => by omega⟩
      · split
        · refine ⟨⟨fun h => by simp_all, fun h => by omega⟩, ⟨fun h => by simp_all, fun h => by omega⟩,
            ⟨fun h => by simp_all, fun h => by omega⟩, ⟨fun _ => by omega, fun _ => rfl⟩,
            ⟨fun h => by simp_all, fun h => by omega⟩⟩
        · refine ⟨⟨fun h => by simp_all, fun h => by omega⟩, ⟨fun h => by simp_all, fun h => by omega⟩,
            ⟨fun h => by simp_all, fun h => by omega⟩, ⟨fun h => by simp_all, fun h => by omega⟩,
            ⟨fun _ => by omega, fun _ => rfl⟩⟩

/-- Divergence `type` values returned by the divergence detectors. -/
inductive DivType where
  | bullish
  | bearish
  | noDiv
deriving Repr, DecidableEq

/-- Result record of `detectRSIDivergence` / `detectMACDDivergence`. -/
structure Divergence where
  type : DivType
  strength : ℚ
deriving Repr, DecidableEq

/-- `price` sub-record of the snapshot built by `computeAll`. -/
structure PriceInfo where
  current : ℚ
  openPrice : ℚ
  high : ℚ
  low : ℚ
  volume : ℚ
deriving Repr, DecidableEq

/-- `ema` sub-record of the snapshot built by `computeAll`. -/
structure EmaInfo where
  ema9 : Option ℚ
  ema21 : Option ℚ
  sma50 : Option ℚ
  sma200 : Option ℚ
  ema9AboveEma21 : Bool
  prevEma9AboveEma21 : Bool
  priceAboveSma50 : Bool
  priceAboveSma200 : Bool
deriving Repr, DecidableEq

/-- `rsi` sub-record of the snapshot built by `computeAll`. -/
structure RsiInfo where
  value : Option ℚ
  prev : Option ℚ
  isOverbought : Bool
  isOversold : Bool
  divergence : Divergence
deriving Repr, DecidableEq

/-- `macd` sub-record of the snapshot built by `computeAll`. -/
structure MacdInfo where
  macdLine : Option ℚ
  signalLine : Option ℚ
  histogram : Option ℚ
  prevHistogram : Option ℚ
  isBullishCross : Bool
  isBearishCross : Bool
  isAboveZero : Bool
  divergence : Divergence
deriving Repr, DecidableEq

/-- `bollinger` sub-record of the snapshot built by `computeAll`. -/
structure BollingerInfo where
  upper : Option ℚ
  middle : Option ℚ
  lower : Option ℚ
  percentB : Option ℚ
  bandwidth : Option ℚ
  isNearUpper : Bool
  isNearLower : Bool
  isSqueeze : Bool
deriving Repr, DecidableEq

/-- `stochastic` sub-record of the snapshot built by `computeAll`. -/
structure StochasticInfo where
  k : Option ℚ
  d : Option ℚ
  isOverbought : Bool
  isOversold : Bool
  isBullishCross : Bool
  isBearishCross : Bool
deriving Repr, DecidableEq

/-- `adx` sub-record of the snapshot built by `computeAll`. -/
structure AdxInfo where
  value : Option ℚ
  plusDI : Option ℚ
  minusDI : Option ℚ
  isStrong : Bool
  isBullish : Bool
deriving Repr, DecidableEq

/-- `atr` sub-record of the snapshot built by `computeAll`. -/
structure AtrInfo where
  value : Option ℚ
  percent : Option ℚ
deriving Repr, DecidableEq

/-- `vwap` sub-record of the snapshot built by `computeAll`. -/
structure VwapInfo where
  value : Option ℚ
  priceAboveVwap : Bool
deriving Repr, DecidableEq

/-- `obv.trend` values: `'rising'`, `'falling'`, `'neutral'`. -/
inductive ObvTrend where
  | rising
  | falling
  | neutral
deriving Repr, DecidableEq

/-- `obv` sub-record of the snapshot built by `computeAll`. -/
structure ObvInfo where
  value : Option ℚ
  trend : ObvTrend
deriving Repr, DecidableEq

/-- One Fibonacci level record of `fibonacciRetracement`. -/
structure FibLevel where
  level : ℚ
  price : ℚ
  label : String
deriving Repr, DecidableEq

/-- Result record of `fibonacciRetracement`. -/
structure FibonacciInfo where
  swingHigh : ℚ
  swingLow : ℚ
  levels : List FibLevel
  isUptrend : Bool
deriving Repr, DecidableEq

/-- Arrays returned by `macd`. -/
structure MacdArrays where
  macdLine : List (Option ℚ)
  signalLine : List (Option ℚ)
  histogram : List (Option ℚ)
deriving Repr, DecidableEq

/-- Arrays returned by `bollingerBands`. -/
structure BBArrays where
  upper : List (Option ℚ)
  middle : List (Option ℚ)
  lower : List (Option ℚ)
  percentB : List (Option ℚ)
  bandwidth : List (Option ℚ)
deriving Repr, DecidableEq

/-- Arrays returned by `stochastic`. -/
structure StochArrays where
  k : List (Option ℚ)
  d : List (Option ℚ)
deriving Repr, DecidableEq

/-- The `_raw` sub-record of the snapshot built by `computeAll`. -/
structure RawArrays where
  closes : List ℚ
  highs : List ℚ
  lows : List ℚ
  volumes : List ℚ
  rsi : List (Option ℚ)
  macd : MacdArrays
  bb : BBArrays
  stoch : StochArrays
  atr : List (Option ℚ)
deriving Repr, DecidableEq

/-- IndicatorSnapshot: the record returned by `computeAll`. -/
structure IndicatorSnapshot where
  price : PriceInfo
  ema : EmaInfo
  rsi : RsiInfo
  macd : MacdInfo
  bollinger : BollingerInfo
  stochastic : StochasticInfo
  adx : AdxInfo
  atr : AtrInfo
  vwap : VwapInfo
  obv : ObvInfo
  fibonacci : FibonacciInfo
  raw : RawArrays
deriving Repr, DecidableEq

/-- JS `v || d` where `v` is a nullable number: the fallback `d` is taken
when `v` is `null` or `0` (both falsy). -/
def jsOrDefault (v : Option ℚ) (d : ℚ) : ℚ :=
  match v with
  | none => d
  | some x => if x = 0 then d else x

/-- One element of the `takeProfits` list built by `calculateTargets`. -/
structure TakeProfit where
  price : ℚ
  label : String
deriving Repr, DecidableEq

/-- The record returned by `calculateTargets`.  The JS `riskReward` field is a
string: a number formatted to 2 decimals, or `'N/A'` when risk is zero; it is
modelled as `Option ℚ` carrying the 2-decimal-rounded value (`none` = `'N/A'`). -/
structure Targets where
  entry : Option ℚ
  stopLoss : Option ℚ
  takeProfits : List TakeProfit
  riskReward : Option ℚ
deriving Repr, DecidableEq

/-- JS `signalType.action.includes('BUY')`: true exactly for the action
strings `'BUY'` and `'STRONG BUY'`. -/
def isBuyAction (a : SignalAction) : Bool :=
  match a with
  | .strongBuy => true
  | .buy => true
  | _ => false

/-- `calculateTargets` from `src/js/signals.js`.  The JS guard
`indicators.fibonacci && indicators.fibonacci.levels` is always truthy for a
snapshot produced by `computeAll` and is dropped; `.sort((a,b) => a.price - b.price)`
is a stable ascending sort, modelled by `mergeSort`. -/
def calculateTargets (indicators : IndicatorSnapshot) (signalType : SignalType) : Targets :=
  let price := indicators.price.current
  let atrVal := jsOrDefault indicators.atr.value (price * (1/100))
  let isBuy := isBuyAction signalType.action
  if signalType.level = .neutral then
    ⟨none, none, [], none⟩
  else
    let entry := price
    let stopLoss := if isBuy then price - atrVal * (3/2) else price + atrVal * (3/2)
    let fibSorted :=
      if isBuy then
        (indicators.fibonacci.levels.filter (fun l => decide (price < l.price))).mergeSort
          (fun a b => decide (a.price ≤ b.price))
      else
        (indicators.fibonacci.levels.filter (fun l => decide (l.price < price))).mergeSort
          (fun a b => decide (b.price ≤ a.price))
    let fibTPs : List TakeProfit :=
      match fibSorted with
      | [] => []
      | [l1] => [⟨l1.price, "TP1 (" ++ l1.label ++ ")"⟩]
      | l1 :: l2 :: _ => [⟨l1.price, "TP1 (" ++ l1.label ++ ")"⟩, ⟨l2.price, "TP2 (" ++ l2.label ++ ")"⟩]
    let takeProfits : List TakeProfit :=
      if fibTPs.isEmpty then
        if isBuy then
          [⟨price + atrVal * 2, "TP1 (2× ATR)"⟩, ⟨price + atrVal * 3, "TP2 (3× ATR)"⟩]
        else
          [⟨price - atrVal * 2, "TP1 (2× ATR)"⟩, ⟨price - atrVal * 3, "TP2 (3× ATR)"⟩]
      else fibTPs
    let risk := |entry - stopLoss|
    let reward :=
      match takeProfits.head? with
      | some tp => |tp.price - entry|
      | none => risk
    let riskReward := if 0 < risk then some (toFixed2 (reward / risk)) else none
    ⟨some entry, some stopLoss, takeProfits, riskReward⟩

/-- Concrete snapshot with a defined-but-zero ATR (price 100, no Fibonacci
levels), exercising the JS falsy fallback in `calculateTargets`. -/
def snapC3 : IndicatorSnapshot :=
  ⟨⟨100, 100, 100, 100, 1⟩,
   ⟨none, none, none, none, false, false, false, false⟩,
   ⟨none, none, false, false, ⟨.noDiv, 0⟩⟩,
   ⟨none, none, none, none, false, false, false, ⟨.noDiv, 0⟩⟩,
   ⟨none, none, none, none, none, false, false, false⟩,
   ⟨none, none, false, false, false, false⟩,
   ⟨none, none, none, false, false⟩,
   ⟨some 0, some 0⟩,
   ⟨none, false⟩,
   ⟨none, .neutral⟩,
   ⟨100, 100, [], false⟩,
   ⟨[], [], [], [], [], ⟨[], [], []⟩, ⟨[], [], [], [], []⟩, ⟨[], []⟩, []⟩⟩

/-- C3 counterexample: at a snapshot whose ATR value is defined but zero
(`atr.value = some 0`, price 100) and a BUY signal, the claim as stated
predicts `stopLoss = entry − 1.5·ATR = 100` (fallback only when ATR is null),
but `calculateTargets` returns `98.5`: the JS `||` fallback also fires on a
zero ATR. -/
theorem calculateTargets_c3_counterexample :
    (calculateTargets snapC3 ⟨.buy, "🟡", "#ffdd00", .moderate⟩).stopLoss = some (197/2) ∧
    (calculateTargets snapC3 ⟨.buy, "🟡", "#ffdd00", .moderate⟩).stopLoss ≠
      some (100 - 0 * (3/2)) := by
  have h : (calculateTargets snapC3 ⟨.buy, "🟡", "#ffdd00", .moderate⟩).stopLoss =
      some (197/2) := by
    simp only [calculateTargets, snapC3, jsOrDefault, isBuyAction]
    norm_num
    rfl
  refine ⟨h, ?_⟩
  rw [h]
  intro hc
  rw [Option.some_inj] at hc
  norm_num at hc

/-- C3 (amended): for a NEUTRAL-level signal `calculateTargets` returns all-null
targets; otherwise `entry` is the current close, and `stopLoss` is
`entry − 1.5·ATR` for a buy action and `entry + 1.5·ATR` for a sell action,
where ATR falls back to 1% of the current price when the ATR value is null
**or zero** (JS falsiness), not only when it is null. -/
theorem calculateTargets_entry_stop (ind : IndicatorSnapshot) (st : SignalType) :
    (st.level = .neutral → calculateTargets ind st = ⟨none, none, [], none⟩) ∧
    (st.level ≠ .neutral →
      (calculateTargets ind st).entry = some ind.price.current ∧
      (isBuyAction st.action = true →
        (calculateTargets ind st).stopLoss =
          some (ind.price.current -
            jsOrDefault ind.atr.value (ind.price.current * (1/100)) * (3/2))) ∧
      (isBuyAction st.action = false →
        (calculateTargets ind st).stopLoss =
          some (ind.price.current +
            jsOrDefault ind.atr.value (ind.price.current * (1/100)) * (3/2)))) := by
  constructor
  · intro hn
    simp [calculateTargets, hn]
  · intro hn
    refine ⟨?_, ?_, ?_⟩
    · simp [calculateTargets, hn]
    · intro hb
      simp [calculateTargets, hn, hb]
    · intro hb
      simp [calculateTargets, hn, hb]

theorem calculateTargets_entry_stop_witness :
    calculateTargets snapC3 ⟨.neutral, "⚪", "#888888", .neutral⟩ = ⟨none, none, [], none⟩ ∧
    (calculateTargets snapC3 ⟨.buy, "🟡", "#ffdd00", .moderate⟩).entry = some 100 :=
  ⟨(calculateTargets_entry_stop snapC3 ⟨.neutral, "⚪", "#888888", .neutral⟩).1 rfl,
   (calculateTargets_entry_stop snapC3 ⟨.buy, "🟡", "#ffdd00", .moderate⟩).2 (by decide) |>.1⟩

/-- Concrete snapshot (price 100, ATR 2, no Fibonacci levels) used to
exercise the risk/reward computation of `calculateTargets`. -/
def snapC4 : IndicatorSnapshot :=
  ⟨⟨100, 100, 100, 100, 1⟩,
   ⟨none, none, none, none, false, false, false, false⟩,
   ⟨none, none, false, false, ⟨.noDiv, 0⟩⟩,
   ⟨none, none, none, none, false, false, false, ⟨.noDiv, 0⟩⟩,
   ⟨none, none, none, none, none, false, false, false⟩,
   ⟨none, none, false, false, false, false⟩,
   ⟨none, none, none, false, false⟩,
   ⟨some 2, some 2⟩,
   ⟨none, false⟩,
   ⟨none, .neutral⟩,
   ⟨100, 100, [], false⟩,
   ⟨[], [], [], [], [], ⟨[], [], []⟩, ⟨[], [], [], [], []⟩, ⟨[], []⟩, []⟩⟩

/-- C4: for every non-NEUTRAL targets result, `riskReward` equals
`|takeProfits[0].price − entry| / |entry − stopLoss|` recomputed from the
returned entry, stop-loss and first take-profit, reported to 2 decimals; when
the risk `|entry − stopLoss|` is zero, `riskReward` carries no numeric value. -/
theorem calculateTargets_riskReward_roundtrip (ind : IndicatorSnapshot) (st : SignalType)
    (e sl : ℚ) (tp : TakeProfit)
    (he : (calculateTargets ind st).entry = some e)
    (hs : (calculateTargets ind st).stopLoss = some sl)
    (ht : (calculateTargets ind st).takeProfits.head? = some tp) :
    (|e - sl| ≠ 0 →
      (calculateTargets ind st).riskReward = some (toFixed2 (|tp.price - e| / |e - sl|))) ∧
    (|e - sl| = 0 → (calculateTargets ind st).riskReward = none) := by
  by_cases hn : st.level = SignalLevel.neutral
  · simp [calculateTargets, hn] at he
  · simp only [calculateTargets, if_neg hn] at he hs ht ⊢
    rw [Option.some_inj] at he hs
    rw [ht]
    subst he
    subst hs
    constructor
    · intro h
      rw [if_pos (lt_of_le_of_ne (abs_nonneg _) (Ne.symm h))]
    · intro h
      rw [if_neg]
      rw [h]
      exact lt_irrefl 0

theorem calculateTargets_riskReward_roundtrip_witness :
    (calculateTargets snapC4 ⟨.buy, "🟡", "#ffdd00", .moderate⟩).riskReward =
      some (toFixed2 (|(104 : ℚ) - 100| / |(100 : ℚ) - 97|)) := by
  have he : (calculateTargets snapC4 ⟨.buy, "🟡", "#ffdd00", .moderate⟩).entry =
      some 100 := rfl
  have hs : (calculateTargets snapC4 ⟨.buy, "🟡", "#ffdd00", .moderate⟩).stopLoss =
      some 97 := by
    simp only [calculateTargets, snapC4, jsOrDefault, isBuyAction]
    norm_num
    rfl
  have ht : (calculateTargets snapC4 ⟨.buy, "🟡", "#ffdd00", .moderate⟩).takeProfits.head? =
      some ⟨104, "TP1 (2× ATR)"⟩ := by
    simp only [calculateTargets, snapC4, jsOrDefault, isBuyAction]
    norm_num
    rfl
  exact (calculateTargets_riskReward_roundtrip snapC4 ⟨.buy, "🟡", "#ffdd00", .moderate⟩
    100 97 ⟨104, "TP1 (2× ATR)"⟩ he hs ht).1 (by norm_num)

/-- `sma` from the indicators engine: arithmetic mean of the trailing
`period` values, null before index `period − 1`. -/
def sma (data : List ℚ) (period : ℕ) : List (Option ℚ) :=
  (List.range data.length).map fun i =>
    if period - 1 ≤ i then
      some (((data.drop (i + 1 - period)).take period).sum / (period : ℚ))
    else none

/-- The EMA recurrence `ema[i] = α·x[i] + (1 − α)·ema[i−1]`, emitting one
value per remaining data point. -/
def emaFrom (alpha : ℚ) : ℚ → List ℚ → List ℚ
  | _, [] => []
  | prev, x :: xs =>
    let v := alpha * x + (1 - alpha) * prev
    v :: emaFrom alpha v xs

/-- `ema` from the indicators engine: seeded with the SMA of the first
`period` values at index `period − 1`, then the EMA recurrence. -/
def ema (data : List ℚ) (period : ℕ) : List (Option ℚ) :=
  if data.length < period then List.replicate data.length none
  else
    let seed := (data.take period).sum / (period : ℚ)
    List.replicate (period - 1) none ++
      some seed :: (emaFrom (2 / ((period : ℚ) + 1)) seed (data.drop period)).map some

/-- The RSI formula `100 − 100/(1 + avgGain/avgLoss)`, special-cased to `100`
when the average loss is zero (both occurrences in the source). -/
def rsiVal (avgGain avgLoss : ℚ) : ℚ :=
  if avgLoss = 0 then 100 else 100 - 100 / (1 + avgGain / avgLoss)

/-- Wilder smoothing loop of `rsi`: one RSI value per remaining (gain, loss)
pair. -/
def rsiRec (period : ℚ) : ℚ → ℚ → List (ℚ × ℚ) → List ℚ
  | _, _, [] => []
  | avgGain, avgLoss, (g, l) :: rest =>
    let ag := (avgGain * (period - 1) + g) / period
    let al := (avgLoss * (period - 1) + l) / period
    rsiVal ag al :: rsiRec period ag al rest

/-- `rsi` from the indicators engine: all-null when fewer than `period + 1`
closes; otherwise null up to index `period − 1`, the seeded value at index
`period`, then Wilder smoothing. -/
def rsi (closes : List ℚ) (period : ℕ) : List (Option ℚ) :=
  if closes.length < period + 1 then List.replicate closes.length none
  else
    let changes := List.zipWith (fun a b => a - b) (closes.drop 1) closes
    let gains := changes.map fun ch => if 0 < ch then ch else 0
    let losses := changes.map fun ch => if ch < 0 then -ch else 0
    let avgGain := (gains.take period).sum / (period : ℚ)
    let avgLoss := (losses.take period).sum / (period : ℚ)
    List.replicate period none ++
      some (rsiVal avgGain avgLoss) ::
        (rsiRec (period : ℚ) avgGain avgLoss ((gains.drop period).zip (losses.drop period))).map some

/-- The index realignment loop shared by `macd` (signal line) and
`stochastic` (%D): walk the nullable source array, consuming one value of the
compacted array per non-null entry. -/
def remapSignal : List (Option ℚ) → List (Option ℚ) → List (Option ℚ)
  | [], _ => []
  | none :: rest, sig => none :: remapSignal rest sig
  | some _ :: rest, sig => sig.head?.getD none :: remapSignal rest (sig.drop 1)

/-- `macd` from the indicators engine: MACD line = fast EMA − slow EMA,
signal line = EMA of the non-null MACD values re-aligned to original
indices, histogram = MACD line − signal line. -/
def macd (closes : List ℚ) (fastPeriod slowPeriod signalPeriod : ℕ) : MacdArrays :=
  let emaFast := ema closes fastPeriod
  let emaSlow := ema closes slowPeriod
  let macdLine := List.zipWith optSub emaFast emaSlow
  let macdValues := macdLine.filterMap id
  let signalEma := ema macdValues signalPeriod
  let signalLine := remapSignal macdLine signalEma
  let histogram := List.zipWith optSub macdLine signalLine
  ⟨macdLine, signalLine, histogram⟩

/-- Population standard deviation of the trailing `period`-window around the
SMA at index `i`, as computed inside `bollingerBands` (`Math.sqrt` modelled
by `Rat.sqrt`). -/
def bbStdDev (closes : List ℚ) (period : ℕ) (i : ℕ) : ℚ :=
  let m := (getO (sma closes period) i).getD 0
  Rat.sqrt ((((closes.drop (i + 1 - period)).take period).map fun xj => (xj - m) ^ 2).sum /
    (period : ℚ))

/-- One loop iteration of `bollingerBands` at index `i ≥ period − 1`:
upper/lower bands, %B and normalized bandwidth (the latter two left null
when the band width is not positive). -/
def bbRow (closes : List ℚ) (period : ℕ) (multiplier : ℚ) (i : ℕ) :
    Option ℚ × Option ℚ × Option ℚ × Option ℚ :=
  let m := (getO (sma closes period) i).getD 0
  let sd := bbStdDev closes period i
  let up := m + multiplier * sd
  let lo := m - multiplier * sd
  let bw := up - lo
  (some up, some lo,
    if 0 < bw then some ((getQ closes i - lo) / bw) else none,
    if 0 < bw then some (bw / m) else none)

/-- `bollingerBands` from the indicators engine. -/
def bollingerBands (closes : List ℚ) (period : ℕ) (multiplier : ℚ) : BBArrays :=
  let len := closes.length
  let middle := sma closes period
  let upper := (List.range len).map fun i =>
    if period - 1 ≤ i then (bbRow closes period multiplier i).1 else none
  let lower := (List.range len).map fun i =>
    if period - 1 ≤ i then (bbRow closes period multiplier i).2.1 else none
  let percentB := (List.range len).map fun i =>
    if period - 1 ≤ i then (bbRow closes period multiplier i).2.2.1 else none
  let bandwidth := (List.range len).map fun i =>
    if period - 1 ≤ i then (bbRow closes period multiplier i).2.2.2 else none
  ⟨upper, middle, lower, percentB, bandwidth⟩

/-- Minimum of a window, as the JS fold with `Infinity` start (the empty case
never occurs at the call sites; `0` stands in for `Infinity` there). -/
def listMin : List ℚ → ℚ
  | [] => 0
  | x :: xs => xs.foldl min x

/-- Maximum of a window, as the JS fold with `-Infinity` start. -/
def listMax : List ℚ → ℚ
  | [] => 0
  | x :: xs => xs.foldl max x

/-- `stochastic` from the indicators engine: `%K` with the zero-range case
special-cased to `50`, `%D` = SMA(3) of the non-null `%K` values re-aligned
to original indices. -/
def stochastic (highs lows closes : List ℚ) (kPeriod dPeriod : ℕ) : StochArrays :=
  let len := closes.length
  let k := (List.range len).map fun i =>
    if kPeriod - 1 ≤ i then
      let lowestLow := listMin ((lows.drop (i + 1 - kPeriod)).take kPeriod)
      let highestHigh := listMax ((highs.drop (i + 1 - kPeriod)).take kPeriod)
      let range := highestHigh - lowestLow
      some (if 0 < range then (getQ closes i - lowestLow) / range * 100 else 50)
    else none
  let kValues := k.filterMap id
  let dSma := sma kValues dPeriod
  let d := remapSignal k dSma
  ⟨k, d⟩

/-- Arrays returned by `adx`. -/
structure AdxArrays where
  adx : List (Option ℚ)
  plusDI : List (Option ℚ)
  minusDI : List (Option ℚ)
deriving Repr, DecidableEq

/-- One Wilder running-smoothing update of `adx`:
`s := s − s/period + newValue` for TR, +DM and −DM simultaneously. -/
def adxStep (period : ℚ) (s t : ℚ × ℚ × ℚ) : ℚ × ℚ × ℚ :=
  (s.1 - s.1 / period + t.1, s.2.1 - s.2.1 / period + t.2.1, s.2.2 - s.2.2 / period + t.2.2)

/-- The +DI/−DI pair computed from smoothed (TR, +DM, −DM), zero when the
smoothed TR is not positive. -/
def diOf (s : ℚ × ℚ × ℚ) : ℚ × ℚ :=
  (if 0 < s.1 then s.2.1 / s.1 * 100 else 0, if 0 < s.1 then s.2.2 / s.1 * 100 else 0)

/-- Emissions of the main `adx` loop after the first (unsmoothed-sums)
iteration: update the smoothed state with each remaining (TR, +DM, −DM)
triple and emit the DI pair. -/
def adxEmitRest (period : ℚ) : (ℚ × ℚ × ℚ) → List (ℚ × ℚ × ℚ) → List (ℚ × ℚ)
  | _, [] => []
  | s, t :: ts =>
    let s2 := adxStep period s t
    diOf s2 :: adxEmitRest period s2 ts

/-- `DX = 100·|+DI − −DI| / (+DI + −DI)`, zero when the DI sum is not
positive. -/
def dxOf (d : ℚ × ℚ) : ℚ :=
  if 0 < d.1 + d.2 then |d.1 - d.2| / (d.1 + d.2) * 100 else 0

/-- Wilder smoothing scan `v := (v·(period−1) + x)/period`, one output per
input (used by `adx` for the ADX values and by `atr`). -/
def wilderScan (period : ℚ) : ℚ → List ℚ → List ℚ
  | _, [] => []
  | prev, x :: xs =>
    let v := (prev * (period - 1) + x) / period
    v :: wilderScan period v xs

/-- `adx` from the indicators engine.  Under the `len ≥ 2·period + 1` guard
the source's inner guards `dx.length >= period` and `startIdx < len` always
hold, so the result arrays are built directly: DI values start at index
`period + 1`, ADX values at index `2·period`. -/
def adx (highs lows closes : List ℚ) (period : ℕ) : AdxArrays :=
  let len := closes.length
  if len < period * 2 + 1 then
    ⟨List.replicate len none, List.replicate len none, List.replicate len none⟩
  else
    let tr := (List.range (len - 1)).map fun j =>
      max (getQ highs (j + 1) - getQ lows (j + 1))
        (max |getQ highs (j + 1) - getQ closes j| |getQ lows (j + 1) - getQ closes j|)
    let plusDM := (List.range (len - 1)).map fun j =>
      let upMove := getQ highs (j + 1) - getQ highs j
      let downMove := getQ lows j - getQ lows (j + 1)
      if downMove < upMove ∧ 0 < upMove then upMove else 0
    let minusDM := (List.range (len - 1)).map fun j =>
      let upMove := getQ highs (j + 1) - getQ highs j
      let downMove := getQ lows j - getQ lows (j + 1)
      if upMove < downMove ∧ 0 < downMove then downMove else 0
    let s0 : ℚ × ℚ × ℚ :=
      ((tr.take period).sum, (plusDM.take period).sum, (minusDM.take period).sum)
    let triples := tr.zip (plusDM.zip minusDM)
    let dis := diOf s0 :: adxEmitRest (period : ℚ) s0 (triples.drop (period + 1))
    let dxs := dis.map dxOf
    let plusDI := List.replicate (period + 1) none ++ dis.map fun d => some d.1
    let minusDI := List.replicate (period + 1) none ++ dis.map fun d => some d.2
    let adxVal0 := (dxs.take period).sum / (period : ℚ)
    let adxArr := List.replicate (period * 2) none ++
      some adxVal0 :: (wilderScan (period : ℚ) adxVal0 (dxs.drop period)).map some
    ⟨adxArr, plusDI, minusDI⟩

/-- `atr` from the indicators engine: first value is the simple mean of the
first `period` True Ranges (at index `period − 1`), then Wilder smoothing. -/
def atr (highs lows closes : List ℚ) (period : ℕ) : List (Option ℚ) :=
  if closes.length < period + 1 then List.replicate closes.length none
  else
    let tr := (getQ highs 0 - getQ lows 0) ::
      (List.range (closes.length - 1)).map fun j =>
        max (getQ highs (j + 1) - getQ lows (j + 1))
          (max |getQ highs (j + 1) - getQ closes j| |getQ lows (j + 1) - getQ closes j|)
    let atrVal := (tr.take period).sum / (period : ℚ)
    List.replicate (period - 1) none ++
      some atrVal :: (wilderScan (period : ℚ) atrVal (tr.drop period)).map some

/-- The `vwap` accumulation loop carrying cumulative `typicalPrice·volume`
and cumulative volume. -/
def vwapRec : ℚ → ℚ → List (ℚ × ℚ × ℚ × ℚ) → List ℚ
  | _, _, [] => []
  | cumTPV, cumVol, (h, l, c, v) :: rest =>
    let typicalPrice := (h + l + c) / 3
    let tpv := cumTPV + typicalPrice * v
    let vol := cumVol + v
    (if 0 < vol then tpv / vol else typicalPrice) :: vwapRec tpv vol rest

/-- `vwap` from the indicators engine. -/
def vwap (highs lows closes volumes : List ℚ) : List ℚ :=
  vwapRec 0 0 (highs.zip (lows.zip (closes.zip volumes)))

/-- The `obv` running-total loop: add volume on up closes, subtract on down
closes, keep on flat closes. -/
def obvRec : ℚ → ℚ → List (ℚ × ℚ) → List ℚ
  | _, _, [] => []
  | prevClose, acc, (c, v) :: rest =>
    let acc2 := if prevClose < c then acc + v else if c < prevClose then acc - v else acc
    acc2 :: obvRec c acc2 rest

/-- `obv` from the indicators engine: first value is the first volume. -/
def obv (closes volumes : List ℚ) : List ℚ :=
  match closes, volumes with
  | c :: cs, v :: vs => v :: obvRec c v (cs.zip vs)
  | _, _ => []

/-- `fibonacciRetracement` from the indicators engine. -/
def fibonacciRetracement (highs lows : List ℚ) (lookback : ℕ) : FibonacciInfo :=
  let start := highs.length - lookback
  let swingHigh := listMax (highs.drop start)
  let swingLow := listMin (lows.drop start)
  let range := swingHigh - swingLow
  let fibs : List (ℚ × String) :=
    [(0, "0%"), (236/1000, "23.6%"), (382/1000, "38.2%"), (1/2, "50%"),
     (618/1000, "61.8%"), (786/1000, "78.6%"), (1, "100%")]
  let recentClose :=
    if 0 < highs.length then
      (getQ highs (highs.length - 1) + getQ lows (lows.length - 1)) / 2
    else 0
  let midpoint := (swingHigh + swingLow) / 2
  let isUptrend := decide (midpoint < recentClose)
  let levels := fibs.map fun fl =>
    (⟨fl.1, if isUptrend then swingHigh - range * fl.1 else swingLow + range * fl.1, fl.2⟩ : FibLevel)
  ⟨swingHigh, swingLow, levels, isUptrend⟩

/-- A pivot record pushed by the divergence detectors: index, close price and
the paired oscillator value (RSI or MACD histogram). -/
structure Pivot where
  idx : ℕ
  price : ℚ
  osc : ℚ
deriving Repr, DecidableEq

/-- `priceLows[len−2], priceLows[len−1]` extraction used by the divergence
detectors (the previous and current pivot). -/
def lastTwo {α : Type} (l : List α) : Option (α × α) :=
  match l.reverse with
  | b :: a :: _ => some (a, b)
  | _ => none

/-- The price-low pivot scan shared by `detectRSIDivergence` and
`detectMACDDivergence` (the source duplicates the loop): index `i` in
`[start+1, len−2]` with a defined oscillator value, `close[i] < close[i−1]`
and `close[i] ≤ close[i+1]`. -/
def pivotLows (closes : List ℚ) (oscValues : List (Option ℚ)) (lookback : ℕ) : List Pivot :=
  let len := closes.length
  let start := len - lookback
  (List.range len).filterMap fun i =>
    if start + 1 ≤ i ∧ i < len - 1 then
      match getO oscValues i with
      | none => none
      | some r =>
        if getQ closes i < getQ closes (i - 1) ∧ getQ closes i ≤ getQ closes (i + 1) then
          some ⟨i, getQ closes i, r⟩
        else none
    else none

/-- The price-high pivot scan shared by the divergence detectors. -/
def pivotHighs (closes : List ℚ) (oscValues : List (Option ℚ)) (lookback : ℕ) : List Pivot :=
  let len := closes.length
  let start := len - lookback
  (List.range len).filterMap fun i =>
    if start + 1 ≤ i ∧ i < len - 1 then
      match getO oscValues i with
      | none => none
      | some r =>
        if getQ closes (i - 1) < getQ closes i ∧ getQ closes (i + 1) ≤ getQ closes i then
          some ⟨i, getQ closes i, r⟩
        else none
    else none

/-- `detectRSIDivergence` from the indicators engine: bullish when the two
most recent price lows have a lower low in price but a higher low in RSI
(strength `min(100, 3·|ΔRSI|)`), else bearish symmetric on highs, else none. -/
def detectRSIDivergence (closes : List ℚ) (rsiValues : List (Option ℚ)) (lookback : ℕ) :
    Divergence :=
  if closes.length < lookback then ⟨.noDiv, 0⟩
  else
    let priceLows := pivotLows closes rsiValues lookback
    let priceHighs := pivotHighs closes rsiValues lookback
    let bull : Option Divergence :=
      match lastTwo priceLows with
      | some (prev, curr) =>
        if curr.price < prev.price ∧ prev.osc < curr.osc then
          some ⟨.bullish, min 100 (|curr.osc - prev.osc| * 3)⟩
        else none
      | none => none
    match bull with
    | some d => d
    | none =>
      match lastTwo priceHighs with
      | some (prev, curr) =>
        if prev.price < curr.price ∧ curr.osc < prev.osc then
          ⟨.bearish, min 100 (|prev.osc - curr.osc| * 3)⟩
        else ⟨.noDiv, 0⟩
      | none => ⟨.noDiv, 0⟩

/-- `detectMACDDivergence` from the indicators engine: structurally identical
to the RSI variant but on the histogram series with strength scaling `×50`. -/
def detectMACDDivergence (closes : List ℚ) (histogram : List (Option ℚ)) (lookback : ℕ) :
    Divergence :=
  if closes.length < lookback then ⟨.noDiv, 0⟩
  else
    let priceLows := pivotLows closes histogram lookback
    let priceHighs := pivotHighs closes histogram lookback
    let bull : Option Divergence :=
      match lastTwo priceLows with
      | some (prev, curr) =>
        if curr.price < prev.price ∧ prev.osc < curr.osc then
          some ⟨.bullish, min 100 (|curr.osc - prev.osc| * 50)⟩
        else none
      | none => none
    match bull with
    | some d => d
    | none =>
      match lastTwo priceHighs with
      | some (prev, curr) =>
        if prev.price < curr.price ∧ curr.osc < prev.osc then
          ⟨.bearish, min 100 (|prev.osc - curr.osc| * 50)⟩
        else ⟨.noDiv, 0⟩
      | none => ⟨.noDiv, 0⟩

theorem rsiVal_mem_Icc {g l : ℚ} (hg : 0 ≤ g) (hl : 0 ≤ l) :
    0 ≤ rsiVal g l ∧ rsiVal g l ≤ 100 := by
  rw [rsiVal]
  split
  · norm_num
  · rename_i h
    have hl2 : 0 < l := lt_of_le_of_ne hl (Ne.symm h)
    have hq : 0 ≤ g / l := div_nonneg hg hl
    constructor
    · have := div_le_self (by norm_num : (0:ℚ) ≤ 100) (by linarith : (1:ℚ) ≤ 1 + g / l)
      linarith
    · have : 0 ≤ 100 / (1 + g / l) := div_nonneg (by norm_num) (by linarith)
      linarith

theorem rsiRec_bounds (p : ℚ) (hp : 1 ≤ p) (pairs : List (ℚ × ℚ)) :
    ∀ (g l : ℚ), 0 ≤ g → 0 ≤ l → (∀ x ∈ pairs, 0 ≤ x.1 ∧ 0 ≤ x.2) →
      ∀ v ∈ rsiRec p g l pairs, 0 ≤ v ∧ v ≤ 100 := by
  induction pairs with
  | nil =>
    intro g l _ _ _ v hv
    simp [rsiRec] at hv
  | cons hd tl ih =>
    intro g l hg hl hx v hv
    obtain ⟨g0, l0⟩ := hd
    simp only [rsiRec] at hv
    have hg0 : 0 ≤ g0 := (hx (g0, l0) (List.mem_cons_self _ _)).1
    have hl0 : 0 ≤ l0 := (hx (g0, l0) (List.mem_cons_self _ _)).2
    have hag : 0 ≤ (g * (p - 1) + g0) / p := by
      apply div_nonneg
      · have : 0 ≤ g * (p - 1) := mul_nonneg hg (by linarith)
        linarith
      · linarith
    have hal : 0 ≤ (l * (p - 1) + l0) / p := by
      apply div_nonneg
      · have : 0 ≤ l * (p - 1) := mul_nonneg hl (by linarith)
        linarith
      · linarith
    rcases List.mem_cons.mp hv with h | h
    · rw [h]
      exact rsiVal_mem_Icc hag hal
    · exact ih _ _ hag hal (fun x hx2 => hx x (List.mem_cons_of_mem _ hx2)) v h

/-- C6: for every closes series of length at least `period + 1` (with
`period ≥ 1`), every non-null value produced by `rsi` lies in `[0, 100]`;
all entries at indices before `period` are null; and the RSI value function
returns exactly `100` whenever the Wilder-smoothed average loss is zero. -/
theorem rsi_range_and_warmup (closes : List ℚ) (period : ℕ) (hp : 1 ≤ period)
    (hlen : period + 1 ≤ closes.length) :
    (∀ v : ℚ, some v ∈ rsi closes period → 0 ≤ v ∧ v ≤ 100) ∧
    (∀ i : ℕ, i < period → getO (rsi closes period) i = none) ∧
    (∀ avgGain : ℚ, rsiVal avgGain 0 = 100) := by
  have hnl : ¬ closes.length < period + 1 := by omega
  have hpq : (1 : ℚ) ≤ (period : ℚ) := by exact_mod_cast hp
  refine ⟨?_, ?_, fun g => by rw [rsiVal]; simp⟩
  · intro v hv
    rw [rsi, if_neg hnl] at hv
    simp only [List.mem_append, List.mem_cons, List.mem_map, List.mem_replicate] at hv
    have hgains : ∀ x ∈ (List.zipWith (fun a b : ℚ => a - b) (closes.drop 1) closes).map
        (fun ch => if 0 < ch then ch else 0), 0 ≤ x := by
      intro x hx
      rcases List.mem_map.mp hx with ⟨ch, _, hch⟩
      rw [← hch]
      split <;> [linarith; rfl]
    have hlosses : ∀ x ∈ (List.zipWith (fun a b : ℚ => a - b) (closes.drop 1) closes).map
        (fun ch => if ch < 0 then -ch else 0), 0 ≤ x := by
      intro x hx
      rcases List.mem_map.mp hx with ⟨ch, _, hch⟩
      rw [← hch]
      split <;> [linarith; rfl]
    have havgG : 0 ≤ (List.take period ((List.zipWith (fun a b : ℚ => a - b) (closes.drop 1)
        closes).map (fun ch => if 0 < ch then ch else 0))).sum / (period : ℚ) := by
      apply div_nonneg _ (by linarith)
      exact List.sum_nonneg fun x hx => hgains x (List.take_subset _ _ hx)
    have havgL : 0 ≤ (List.take period ((List.zipWith (fun a b : ℚ => a - b) (closes.drop 1)
        closes).map (fun ch => if ch < 0 then -ch else 0))).sum / (period : ℚ) := by
      apply div_nonneg _ (by linarith)
      exact List.sum_nonneg fun x hx => hlosses x (List.take_subset _ _ hx)
    rcases hv with ⟨_, hfalse⟩ | hv
    · exact absurd hfalse (by simp)
    rcases hv with hv | ⟨a, ha, hav⟩
    · rw [Option.some_inj] at hv
      rw [hv]
      exact rsiVal_mem_Icc havgG havgL
    · rw [Option.some_inj] at hav
      rw [← hav]
      refine rsiRec_bounds (period : ℚ) hpq _ _ _ havgG havgL ?_ a ha
      intro x hx
      rcases List.of_mem_zip hx with ⟨hx1, hx2⟩
      exact ⟨hgains _ (List.drop_subset _ _ hx1), hlosses _ (List.drop_subset _ _ hx2)⟩
  · intro i hi
    rw [rsi, if_neg hnl, getO, List.getD_eq_getElem?_getD,
      List.getElem?_append_left (by simp [hi]), List.getElem?_replicate_of_lt hi]
    rfl

/-- Concrete 30-bar closes series with price lows at index 10 (price 8) and
index 20 (price 7). -/
def closesC7 : List ℚ :=
  [10, 10, 10, 10, 10, 10, 10, 10, 10, 10,
   8, 10, 10, 10, 10, 10, 10, 10, 10, 10,
   7, 10, 10, 10, 10, 10, 10, 10, 10, 10]

/-- RSI series paired with `closesC7`: RSI 30 at the first low, RSI 40 at the
second (higher RSI at the lower low). -/
def rsiC7 : List (Option ℚ) :=
  [some 50, some 50, some 50, some 50, some 50, some 50, some 50, some 50, some 50, some 50,
   some 30, some 50, some 50, some 50, some 50, some 50, some 50, some 50, some 50, some 50,
   some 40, some 50, some 50, some 50, some 50, some 50, some 50, some 50, some 50, some 50]

/-- C7: whenever the trailing 30-bar window's price-low pivot list (index `i`
is a low when `close[i] < close[i−1]` and `close[i] ≤ close[i+1]`, with a
defined RSI there) ends with a pivot of strictly lower price and strictly
higher RSI than the previous one, `detectRSIDivergence` returns a bullish
divergence of positive strength `min(100, 3·ΔRSI)`; only the two most recent
pivots are compared. -/
theorem detectRSIDivergence_bullish (closes : List ℚ) (rsiValues : List (Option ℚ))
    (prev curr : Pivot) (hlen : 30 ≤ closes.length)
    (hpiv : lastTwo (pivotLows closes rsiValues 30) = some (prev, curr))
    (hprice : curr.price < prev.price) (hosc : prev.osc < curr.osc) :
    detectRSIDivergence closes rsiValues 30 =
      ⟨.bullish, min 100 ((curr.osc - prev.osc) * 3)⟩ ∧
    0 < min (100 : ℚ) ((curr.osc - prev.osc) * 3) := by
  have habs : |curr.osc - prev.osc| = curr.osc - prev.osc := abs_of_pos (by linarith)
  constructor
  · rw [detectRSIDivergence, if_neg (by omega)]
    simp only [hpiv]
    rw [if_pos ⟨hprice, hosc⟩, habs]
  · exact lt_min (by norm_num) (by nlinarith)

theorem detectRSIDivergence_bullish_witness :
    detectRSIDivergence closesC7 rsiC7 30 =
      ⟨.bullish, min 100 (((40 : ℚ) - 30) * 3)⟩ ∧
    0 < min (100 : ℚ) (((40 : ℚ) - 30) * 3) :=
  detectRSIDivergence_bullish closesC7 rsiC7 ⟨10, 8, 30⟩ ⟨20, 7, 40⟩ (by decide)
    (by decide) (by decide) (by decide)

theorem rsi_range_and_warmup_witness :
    rsiVal 42 0 = 100 ∧ getO (rsi (List.replicate 15 1) 14) 0 = none := by
  have h := rsi_range_and_warmup (List.replicate 15 1) 14 (by norm_num) (by simp)
  exact ⟨h.2.2 42, h.2.1 0 (by norm_num)⟩

/-- JS `a < b` where either side may be `null` (coerced to `0`). -/
def jsLTo (a b : Option ℚ) : Bool := decide (a.getD 0 < b.getD 0)

/-- JS `a >= b` where either side may be `null` (coerced to `0`). -/
def jsGEo (a b : Option ℚ) : Bool := decide (b.getD 0 ≤ a.getD 0)

/-- A candle record (`time` is unused by the indicator math). -/
structure Candle where
  time : ℤ
  openPrice : ℚ
  high : ℚ
  low : ℚ
  close : ℚ
  volume : ℚ
deriving Repr, DecidableEq

/-- `candles.map(c => c.close)` at the top of `computeAll`. -/
def closesOf (candles : List Candle) : List ℚ := candles.map Candle.close

/-- `candles.map(c => c.high)`. -/
def highsOf (candles : List Candle) : List ℚ := candles.map Candle.high

/-- `candles.map(c => c.low)`. -/
def lowsOf (candles : List Candle) : List ℚ := candles.map Candle.low

/-- `candles.map(c => c.volume)`. -/
def volumesOf (candles : List Candle) : List ℚ := candles.map Candle.volume

/-- The `price` part of the `computeAll` snapshot. -/
def priceInfoOf (candles : List Candle) : PriceInfo :=
  let last := candles.length - 1
  ⟨getQ (closesOf candles) last, (candles.getD last ⟨0, 0, 0, 0, 0, 0⟩).openPrice,
   getQ (highsOf candles) last, getQ (lowsOf candles) last, getQ (volumesOf candles) last⟩

/-- The `ema` part of the `computeAll` snapshot. -/
def emaInfoOf (candles : List Candle) : EmaInfo :=
  let closes := closesOf candles
  let last := candles.length - 1
  let ema9 := ema closes 9
  let ema21 := ema closes 21
  let sma50 := sma closes 50
  let sma200 := sma closes 200
  ⟨getO ema9 last, getO ema21 last, getO sma50 last, getO sma200 last,
   (getO ema9 last).isSome && (getO ema21 last).isSome &&
     jsGTo (getO ema9 last) (getO ema21 last),
   decide (0 < last) && (getO ema9 (last - 1)).isSome && (getO ema21 (last - 1)).isSome &&
     jsGTo (getO ema9 (last - 1)) (getO ema21 (last - 1)),
   (getO sma50 last).isSome && jsGTo (some (getQ closes last)) (getO sma50 last),
   (getO sma200 last).isSome && jsGTo (some (getQ closes last)) (getO sma200 last)⟩

/-- The `rsi` part of the `computeAll` snapshot. -/
def rsiInfoOf (candles : List Candle) : RsiInfo :=
  let closes := closesOf candles
  let last := candles.length - 1
  let rsiValues := rsi closes 14
  ⟨getO rsiValues last,
   if 0 < last then getO rsiValues (last - 1) else none,
   (getO rsiValues last).isSome && jsGTo (getO rsiValues last) (some 70),
   (getO rsiValues last).isSome && jsLTo (getO rsiValues last) (some 30),
   detectRSIDivergence closes rsiValues 30⟩

/-- The `macd` part of the `computeAll` snapshot. -/
def macdInfoOf (candles : List Candle) : MacdInfo :=
  let closes := closesOf candles
  let last := candles.length - 1
  let m := macd closes 12 26 9
  ⟨getO m.macdLine last, getO m.signalLine last, getO m.histogram last,
   if 0 < last then getO m.histogram (last - 1) else none,
   jsGTo (getO m.macdLine last) (getO m.signalLine last) &&
     (decide (0 < last) && (getO m.macdLine (last - 1)).isSome &&
       (getO m.signalLine (last - 1)).isSome &&
       jsLEo (getO m.macdLine (last - 1)) (getO m.signalLine (last - 1))),
   jsLTo (getO m.macdLine last) (getO m.signalLine last) &&
     (decide (0 < last) && (getO m.macdLine (last - 1)).isSome &&
       (getO m.signalLine (last - 1)).isSome &&
       jsGEo (getO m.macdLine (last - 1)) (getO m.signalLine (last - 1))),
   jsGTo (getO m.macdLine last) (some 0),
   detectMACDDivergence closes m.histogram 30⟩

/-- The `bollinger` part of the `computeAll` snapshot. -/
def bollingerInfoOf (candles : List Candle) : BollingerInfo :=
  let closes := closesOf candles
  let last := candles.length - 1
  let bb := bollingerBands closes 20 2
  ⟨getO bb.upper last, getO bb.middle last, getO bb.lower last, getO bb.percentB last,
   getO bb.bandwidth last,
   (getO bb.percentB last).isSome && jsGTo (getO bb.percentB last) (some (4/5)),
   (getO bb.percentB last).isSome && jsLTo (getO bb.percentB last) (some (1/5)),
   (getO bb.bandwidth last).isSome && jsLTo (getO bb.bandwidth last) (some (1/50))⟩

/-- The `stochastic` part of the `computeAll` snapshot. -/
def stochasticInfoOf (candles : List Candle) : StochasticInfo :=
  let closes := closesOf candles
  let last := candles.length - 1
  let st := stochastic (highsOf candles) (lowsOf candles) closes 14 3
  ⟨getO st.k last, getO st.d last,
   (getO st.k last).isSome && jsGTo (getO st.k last) (some 80),
   (getO st.k last).isSome && jsLTo (getO st.k last) (some 20),
   jsGTo (getO st.k last) (getO st.d last) &&
     (decide (0 < last) && (getO st.k (last - 1)).isSome && (getO st.d (last - 1)).isSome &&
       jsLEo (getO st.k (last - 1)) (getO st.d (last - 1))),
   jsLTo (getO st.k last) (getO st.d last) &&
     (decide (0 < last) && (getO st.k (last - 1)).isSome && (getO st.d (last - 1)).isSome &&
       jsGEo (getO st.k (last - 1)) (getO st.d (last - 1)))⟩

/-- The `adx` part of the `computeAll` snapshot. -/
def adxInfoOf (candles : List Candle) : AdxInfo :=
  let closes := closesOf candles
  let last := candles.length - 1
  let a := adx (highsOf candles) (lowsOf candles) closes 14
  ⟨getO a.adx last, getO a.plusDI last, getO a.minusDI last,
   (getO a.adx last).isSome && jsGTo (getO a.adx last) (some 25),
   (getO a.plusDI last).isSome && (getO a.minusDI last).isSome &&
     jsGTo (getO a.plusDI last) (getO a.minusDI last)⟩

/-- The `atr` part of the `computeAll` snapshot. -/
def atrInfoOf (candles : List Candle) : AtrInfo :=
  let closes := closesOf candles
  let last := candles.length - 1
  let atrValues := atr (highsOf candles) (lowsOf candles) closes 14
  ⟨getO atrValues last,
   match getO atrValues last with
   | some v => some (v / getQ closes last * 100)
   | none => none⟩

/-- The `vwap` part of the `computeAll` snapshot. -/
def vwapInfoOf (candles : List Candle) : VwapInfo :=
  let closes := closesOf candles
  let last := candles.length - 1
  let vwapValues := vwap (highsOf candles) (lowsOf candles) closes (volumesOf candles)
  ⟨vwapValues[last]?, decide (getQ vwapValues last < getQ closes last)⟩

/-- The `obv` part of the `computeAll` snapshot. -/
def obvInfoOf (candles : List Candle) : ObvInfo :=
  let closes := closesOf candles
  let last := candles.length - 1
  let obvValues := obv closes (volumesOf candles)
  ⟨obvValues[last]?,
   if 5 < candles.length then
     (if getQ obvValues (last - 5) < getQ obvValues last then .rising else .falling)
   else .neutral⟩

/-- The `_raw` part of the `computeAll` snapshot. -/
def rawOf (candles : List Candle) : RawArrays :=
  let closes := closesOf candles
  let highs := highsOf candles
  let lows := lowsOf candles
  let volumes := volumesOf candles
  ⟨closes, highs, lows, volumes, rsi closes 14, macd closes 12 26 9,
   bollingerBands closes 20 2, stochastic highs lows closes 14 3, atr highs lows closes 14⟩

/-- `computeAll` from the indicators engine, assembled from the per-family
builders above (the source builds one object literal; the decomposition is
semantics-preserving). -/
def computeAll (candles : List Candle) : IndicatorSnapshot :=
  ⟨priceInfoOf candles, emaInfoOf candles, rsiInfoOf candles, macdInfoOf candles,
   bollingerInfoOf candles, stochasticInfoOf candles, adxInfoOf candles, atrInfoOf candles,
   vwapInfoOf candles, obvInfoOf candles,
   fibonacciRetracement (highsOf candles) (lowsOf candles) (min 100 candles.length),
   rawOf candles⟩

/-- `getIndicatorSignals` from `src/js/signals.js`: the eight sub-signals in
`[-1, 1]`, each translated clause by clause from the source. -/
def getIndicatorSignals (indicators : IndicatorSnapshot) : SignalVector :=
  let rsiSignal : ℚ :=
    match indicators.rsi.value with
    | none => 0
    | some v =>
      if v < 20 then 1
      else if v < 30 then 7/10
      else if v < 40 then 3/10
      else if 80 < v then -1
      else if 70 < v then -(7/10)
      else if 60 < v then -(3/10)
      else 0
  let macdCrossSignal : ℚ :=
    match indicators.macd.macdLine with
    | none => 0
    | some _ =>
      if indicators.macd.isBullishCross then 1
      else if indicators.macd.isBearishCross then -1
      else
        match indicators.macd.histogram with
        | none => 0
        | some hist =>
          let histUp : Bool :=
            match indicators.macd.prevHistogram with
            | some p => decide (p < hist)
            | none => false
          let histDown : Bool :=
            match indicators.macd.prevHistogram with
            | some p => decide (hist < p)
            | none => false
          if 0 < hist ∧ histUp = true then 1/2
          else if 0 < hist then 1/5
          else if hist < 0 ∧ histDown = true then -(1/2)
          else if hist < 0 then -(1/5)
          else 0
  let macdDivergenceSignal : ℚ :=
    if indicators.macd.divergence.type = .bullish then
      1/2 + indicators.macd.divergence.strength / 200
    else if indicators.macd.divergence.type = .bearish then
      -(1/2 + indicators.macd.divergence.strength / 200)
    else if indicators.rsi.divergence.type = .bullish then
      2/5 + indicators.rsi.divergence.strength / 250
    else if indicators.rsi.divergence.type = .bearish then
      -(2/5 + indicators.rsi.divergence.strength / 250)
    else 0
  let bollingerSignal : ℚ :=
    match indicators.bollinger.percentB with
    | none => 0
    | some pctB =>
      if pctB < 0 then 1
      else if pctB < 1/20 then 4/5
      else if pctB < 1/5 then 2/5
      else if 1 < pctB then -1
      else if 19/20 < pctB then -(4/5)
      else if 4/5 < pctB then -(2/5)
      else 0
  let stochasticSignal : ℚ :=
    match indicators.stochastic.k with
    | none => 0
    | some _ =>
      if indicators.stochastic.isOversold && indicators.stochastic.isBullishCross then 1
      else if indicators.stochastic.isOversold then 1/2
      else if indicators.stochastic.isOverbought && indicators.stochastic.isBearishCross then -1
      else if indicators.stochastic.isOverbought then -(1/2)
      else if indicators.stochastic.isBullishCross then 3/10
      else if indicators.stochastic.isBearishCross then -(3/10)
      else 0
  let emaCrossSignal : ℚ :=
    match indicators.ema.ema9, indicators.ema.ema21 with
    | some _, some _ =>
      let justCrossedBullish := indicators.ema.ema9AboveEma21 && !indicators.ema.prevEma9AboveEma21
      let justCrossedBearish := !indicators.ema.ema9AboveEma21 && indicators.ema.prevEma9AboveEma21
      let base : ℚ :=
        if justCrossedBullish then 1
        else if justCrossedBearish then -1
        else if indicators.ema.ema9AboveEma21 then 3/10
        else -(3/10)
      match indicators.ema.sma200 with
      | some _ =>
        if indicators.ema.priceAboveSma200 = true ∧ 0 < base then min 1 (base + 1/5)
        else if indicators.ema.priceAboveSma200 = false ∧ base < 0 then max (-1) (base - 1/5)
        else base
      | none => base
    | _, _ => 0
  let adxTrendSignal : ℚ :=
    match indicators.adx.value with
    | none => 0
    | some _ =>
      if indicators.adx.isStrong then
        (if indicators.adx.isBullish then 7/10 else -(7/10))
      else 0
  let volumeOBVSignal : ℚ :=
    let base : ℚ :=
      match indicators.obv.trend with
      | .rising => 1/2
      | .falling => -(1/2)
      | .neutral => 0
    if indicators.vwap.priceAboveVwap = true ∧ 0 < base then min 1 (base + 3/10)
    else if indicators.vwap.priceAboveVwap = false ∧ base < 0 then max (-1) (base - 3/10)
    else base
  ⟨rsiSignal, macdCrossSignal, macdDivergenceSignal, bollingerSignal, stochasticSignal,
   emaCrossSignal, adxTrendSignal, volumeOBVSignal⟩

/-- JS truthiness of a nullable number: false for `null` and `0`. -/
def jsTruthy (v : Option ℚ) : Bool :=
  match v with
  | none => false
  | some x => decide (x ≠ 0)

/-- String content of JS `x.toFixed(digits)` (no locale grouping). -/
def ratToFixedStr (digits : ℕ) (q : ℚ) : String :=
  let scaled := jsRound (q * ((10 ^ digits : ℕ) : ℚ))
  let base : ℕ := 10 ^ digits
  let n := scaled.natAbs
  let sign := if scaled < 0 then "-" else ""
  if digits = 0 then sign ++ toString n
  else
    let frac := toString (n % base)
    let pad := String.mk (List.replicate (digits - frac.length) '0')
    sign ++ toString (n / base) ++ "." ++ pad ++ frac

/-- The divergence `type` string as interpolated into a reason line. -/
def divName (t : DivType) : String :=
  match t with
  | .bullish => "bullish"
  | .bearish => "bearish"
  | .noDiv => "none"

/-- One `TIMEFRAME_INFO` entry of `src/js/signals.js`. -/
structure TfInfo where
  label : String
  candlesLabel : String
  candleMinutes : ℕ
  swingCandles : ℕ
deriving Repr, DecidableEq

/-- `TIMEFRAME_INFO[timeframe] || TIMEFRAME_INFO['15m']`. -/
def timeframeInfo (timeframe : String) : TfInfo :=
  if timeframe = "5m" then ⟨"5 min", "1–3 candles", 5, 3⟩
  else if timeframe = "15m" then ⟨"15 min", "2–4 candles", 15, 4⟩
  else if timeframe = "1h" then ⟨"1 hour", "2–6 candles", 60, 4⟩
  else if timeframe = "4h" then ⟨"4 hour", "2–4 candles", 240, 3⟩
  else ⟨"15 min", "2–4 candles", 15, 4⟩

/-- The record returned by `buildTradePlan`: one constructor per return shape
of the source (the NEUTRAL early return and the full plan). -/
inductive TradePlan where
  | wait (summary : String) (support : Option ℚ) (resistance : Option ℚ)
  | trade (action : String) (summary : String) (entry : Option ℚ) (exitPrice : Option ℚ)
      (stopLoss : Option ℚ) (holdTime : String) (holdLabel : String) (expectedMove : ℚ)
      (expectedMovePercent : ℚ) (support : ℚ) (resistance : ℚ) (vwapZone : Option ℚ)
      (riskAmount : Option ℚ) (rewardAmount : Option ℚ) (profitPercent : Option String)
      (lossPercent : Option String) (reasons : List String) (timeframe : String)
      (timeframeLabel : String)
deriving Repr, DecidableEq

/-- `buildTradePlan` from `src/js/signals.js` (`Math.sqrt` modelled by
`Rat.sqrt`, `toLocaleString` by plain decimal digits). -/
def buildTradePlan (indicators : IndicatorSnapshot) (signalType : SignalType)
    (targets : Targets) (timeframe : String) : TradePlan :=
  let price := indicators.price.current
  let atrVal := jsOrDefault indicators.atr.value (price * (1/100))
  let tfInfo := timeframeInfo timeframe
  let isBuy := isBuyAction signalType.action
  if signalType.level = .neutral then
    .wait "No clear setup — wait for a stronger signal"
      indicators.bollinger.lower indicators.bollinger.upper
  else
    let expectedMove := atrVal * Rat.sqrt ((tfInfo.swingCandles : ℚ))
    let holdMinutes : ℕ := tfInfo.candleMinutes * tfInfo.swingCandles
    let holdTime :=
      if holdMinutes < 60 then "~" ++ toString holdMinutes ++ " min"
      else if holdMinutes < 1440 then "~" ++ ratToFixedStr 1 ((holdMinutes : ℚ) / 60) ++ " hrs"
      else "~" ++ ratToFixedStr 1 ((holdMinutes : ℚ) / 1440) ++ " days"
    let entry := targets.entry
    let exitPrice : Option ℚ :=
      match targets.takeProfits.head? with
      | some tp => some tp.price
      | none => none
    let stopLoss := targets.stopLoss
    let riskAmount : Option ℚ :=
      if jsTruthy entry && jsTruthy stopLoss then some |entry.getD 0 - stopLoss.getD 0| else none
    let rewardAmount : Option ℚ :=
      if jsTruthy entry && jsTruthy exitPrice then some |exitPrice.getD 0 - entry.getD 0| else none
    let support := jsOrDefault indicators.bollinger.lower (price - atrVal * 2)
    let resistance := jsOrDefault indicators.bollinger.upper (price + atrVal * 2)
    let vwapZone := indicators.vwap.value
    let summary :=
      if isBuy then
        let exitStr :=
          if jsTruthy exitPrice then "$" ++ toString (jsRound (exitPrice.getD 0))
          else "$" ++ toString (jsRound (price + expectedMove))
        "BUY @ $" ++ toString (jsRound (entry.getD 0)) ++ " → SELL @ " ++ exitStr
      else
        let exitStr :=
          if jsTruthy exitPrice then "$" ++ toString (jsRound (exitPrice.getD 0))
          else "$" ++ toString (jsRound (price - expectedMove))
        "SELL @ $" ++ toString (jsRound (entry.getD 0)) ++ " → BUY BACK @ " ++ exitStr
    let adxStr :=
      match indicators.adx.value with
      | some v => ratToFixedStr 0 v
      | none => "undefined"
    let reasons :=
      (if indicators.rsi.isOversold then ["RSI oversold"] else []) ++
      (if indicators.rsi.isOverbought then ["RSI overbought"] else []) ++
      (if indicators.macd.isBullishCross then ["MACD bullish cross"] else []) ++
      (if indicators.macd.isBearishCross then ["MACD bearish cross"] else []) ++
      (if indicators.stochastic.isOversold then ["Stochastic oversold"] else []) ++
      (if indicators.stochastic.isOverbought then ["Stochastic overbought"] else []) ++
      (if indicators.ema.ema9AboveEma21 then ["EMA 9 > 21 (bullish)"] else []) ++
      (if !indicators.ema.ema9AboveEma21 && indicators.ema.ema9.isSome then
        ["EMA 9 < 21 (bearish)"] else []) ++
      (if indicators.bollinger.isNearLower then ["Near Bollinger lower band"] else []) ++
      (if indicators.bollinger.isNearUpper then ["Near Bollinger upper band"] else []) ++
      (if indicators.adx.isStrong then ["Strong trend (ADX " ++ adxStr ++ ")"] else []) ++
      (if indicators.vwap.priceAboveVwap && isBuy then ["Price above VWAP"] else []) ++
      (if !indicators.vwap.priceAboveVwap && !isBuy then ["Price below VWAP"] else []) ++
      (if indicators.rsi.divergence.type ≠ .noDiv then
        [divName indicators.rsi.divergence.type ++ " RSI divergence"] else []) ++
      (if indicators.macd.divergence.type ≠ .noDiv then
        [divName indicators.macd.divergence.type ++ " MACD divergence"] else [])
    .trade (if isBuy then "BUY" else "SELL") summary entry exitPrice stopLoss holdTime
      ("Hold " ++ tfInfo.candlesLabel ++ " (" ++ holdTime ++ ")") expectedMove
      (expectedMove / price * 100) support resistance vwapZone riskAmount rewardAmount
      (if jsTruthy rewardAmount then
        some (ratToFixedStr 3 (rewardAmount.getD 0 / entry.getD 0 * 100)) else none)
      (if jsTruthy riskAmount then
        some (ratToFixedStr 3 (riskAmount.getD 0 / entry.getD 0 * 100)) else none)
      (reasons.take 5) timeframe tfInfo.label

/-- The `direction` field of a breakdown entry in `generateSignal`. -/
def directionOf (value : ℚ) : String :=
  if 1/10 < value then "bullish" else if value < -(1/10) then "bearish" else "neutral"

/-- `formatIndicatorName` from `src/js/signals.js`. -/
def formatIndicatorName (key : String) : String :=
  if key = "rsi" then "RSI (14)"
  else if key = "macdCross" then "MACD Cross"
  else if key = "macdDivergence" then "Divergence"
  else if key = "bollingerBands" then "Bollinger Bands"
  else if key = "stochastic" then "Stochastic"
  else if key = "emaCross" then "EMA Cross (9/21)"
  else if key = "adxTrend" then "ADX Trend"
  else if key = "volumeOBV" then "Volume/OBV"
  else key

/-- One breakdown entry of `generateSignal`. -/
structure Breakdown where
  name : String
  signal : ℚ
  weight : ℚ
  contribution : ℤ
  direction : String
deriving Repr, DecidableEq

/-- The record returned by `generateSignal` (its `indicators` sub-object is
flattened into `ind*` fields; `timestamp` carries the `Date.now()` argument). -/
structure SignalOutput where
  score : ℤ
  action : SignalAction
  emoji : String
  color : String
  level : SignalLevel
  targets : Targets
  tradePlan : TradePlan
  breakdown : List Breakdown
  timestamp : ℤ
  indRsi : Option ℚ
  indMacdHistogram : Option ℚ
  indBollingerPctB : Option ℚ
  indStochasticK : Option ℚ
  indAdxValue : Option ℚ
  indAtrValue : Option ℚ
  indAtrPercent : Option ℚ
deriving Repr, DecidableEq

/-- `generateSignal` from `src/js/signals.js` (`Date.now()` is passed in as
`now`). -/
def generateSignal (indicators : IndicatorSnapshot) (timeframe : String) (now : ℤ) :
    SignalOutput :=
  let signals := getIndicatorSignals indicators
  let score := calculateConfluenceScore signals
  let signalType := getSignalType score
  let targets := calculateTargets indicators signalType
  let tradePlan := buildTradePlan indicators signalType targets timeframe
  let breakdown : List Breakdown :=
    [⟨formatIndicatorName "rsi", signals.rsi, 15, jsRound (signals.rsi * 15),
       directionOf signals.rsi⟩,
     ⟨formatIndicatorName "macdCross", signals.macdCross, 20, jsRound (signals.macdCross * 20),
       directionOf signals.macdCross⟩,
     ⟨formatIndicatorName "macdDivergence", signals.macdDivergence, 15,
       jsRound (signals.macdDivergence * 15), directionOf signals.macdDivergence⟩,
     ⟨formatIndicatorName "bollingerBands", signals.bollingerBands, 10,
       jsRound (signals.bollingerBands * 10), directionOf signals.bollingerBands⟩,
     ⟨formatIndicatorName "stochastic", signals.stochastic, 10,
       jsRound (signals.stochastic * 10), directionOf signals.stochastic⟩,
     ⟨formatIndicatorName "emaCross", signals.emaCross, 15, jsRound (signals.emaCross * 15),
       directionOf signals.emaCross⟩,
     ⟨formatIndicatorName "adxTrend", signals.adxTrend, 10, jsRound (signals.adxTrend * 10),
       directionOf signals.adxTrend⟩,
     ⟨formatIndicatorName "volumeOBV", signals.volumeOBV, 5, jsRound (signals.volumeOBV * 5),
       directionOf signals.volumeOBV⟩]
  ⟨score, signalType.action, signalType.emoji, signalType.color, signalType.level, targets,
   tradePlan, breakdown, now, indicators.rsi.value, indicators.macd.histogram,
   indicators.bollinger.percentB, indicators.stochastic.k, indicators.adx.value,
   indicators.atr.value, indicators.atr.percent⟩

/-- One entry of the module-level `signalHistory` array. -/
structure HistoryEntry where
  action : SignalAction
  score : ℤ
  price : Option ℚ
  timestamp : ℤ
  color : String
deriving Repr, DecidableEq

/-- `MAX_HISTORY` from `src/js/signals.js`. -/
def MAX_HISTORY : ℕ := 20

/-- The append condition of `recordSignal`: history empty, action changed, or
score moved by at least 10 in absolute value. -/
def shouldRecord (hist : List HistoryEntry) (signal : SignalOutput) : Bool :=
  match hist.getLast? with
  | none => true
  | some lastSignal =>
    decide (lastSignal.action ≠ signal.action) || decide (10 ≤ |lastSignal.score - signal.score|)

/-- `recordSignal` from `src/js/signals.js`, with the module-level history
array threaded explicitly: returns the new history and the boolean result. -/
def recordSignal (hist : List HistoryEntry) (signal : SignalOutput) :
    List HistoryEntry × Bool :=
  if shouldRecord hist signal then
    let h2 := hist ++
      [⟨signal.action, signal.score, signal.targets.entry, signal.timestamp, signal.color⟩]
    (if MAX_HISTORY < h2.length then h2.tail else h2, true)
  else (hist, false)

/-- One refresh cycle as driven by the callers of this module: compute the
snapshot, generate the signal, then record it against the running history. -/
def runPipeline (hist : List HistoryEntry) (candles : List Candle) (timeframe : String)
    (now : ℤ) : IndicatorSnapshot × SignalOutput × List HistoryEntry × Bool :=
  let snap := computeAll candles
  let out := generateSignal snap timeframe now
  let rec2 := recordSignal hist out
  (snap, out, rec2.1, rec2.2)

/-- The history entry `recordSignal` pushes: action, score, entry price,
timestamp and color of the signal. -/
def mkHistoryEntry (signal : SignalOutput) : HistoryEntry :=
  ⟨signal.action, signal.score, signal.targets.entry, signal.timestamp, signal.color⟩

theorem recordSignal_length_le (hist : List HistoryEntry) (s : SignalOutput)
    (h : hist.length ≤ 20) : (recordSignal hist s).1.length ≤ 20 := by
  by_cases hrec : shouldRecord hist s = true
  · simp only [recordSignal, if_pos hrec, MAX_HISTORY]
    split
    · simp only [List.length_tail, List.length_append, List.length_cons, List.length_nil]
      omega
    · rename_i hlen
      simp only [not_lt, List.length_append, List.length_cons, List.length_nil] at hlen
      simpa using hlen
  · simp only [recordSignal, if_neg hrec]
    exact h

theorem foldl_record_length (sigs : List SignalOutput) :
    ∀ hist : List HistoryEntry, hist.length ≤ 20 →
      (sigs.foldl (fun h s => (recordSignal h s).1) hist).length ≤ 20 := by
  induction sigs with
  | nil => intro hist h; simpa using h
  | cons s rest ih =>
    intro hist h
    rw [List.foldl_cons]
    exact ih _ (recordSignal_length_le hist s h)

theorem recordSignal_snd (hist : List HistoryEntry) (s : SignalOutput) :
    (recordSignal hist s).2 = shouldRecord hist s := by
  rw [recordSignal]
  split <;> simp_all

theorem shouldRecord_iff (hist : List HistoryEntry) (s : SignalOutput) :
    shouldRecord hist s = true ↔
      (hist = [] ∨ ∃ lastSig, hist.getLast? = some lastSig ∧
        (lastSig.action ≠ s.action ∨ 10 ≤ |lastSig.score - s.score|)) := by
  rw [shouldRecord]
  cases hl : hist.getLast? with
  | none =>
    rw [List.getLast?_eq_none_iff] at hl
    simp [hl]
  | some lastSig =>
    have hne : hist ≠ [] := by
      intro he
      rw [he] at hl
      simp at hl
    simp only [hne, false_or]
    constructor
    · intro hb
      rcases Bool.or_eq_true_iff.mp hb with hb | hb
      · exact ⟨lastSig, rfl, Or.inl (of_decide_eq_true hb)⟩
      · exact ⟨lastSig, rfl, Or.inr (of_decide_eq_true hb)⟩
    · rintro ⟨lastSig2, hl2, hcond⟩
      rw [Option.some_inj] at hl2
      subst hl2
      rcases hcond with hc | hc
      · exact Bool.or_eq_true_iff.mpr (Or.inl (decide_eq_true hc))
      · exact Bool.or_eq_true_iff.mpr (Or.inr (decide_eq_true hc))

/-- C8: starting from the empty history, any sequence of `recordSignal` calls
leaves at most 20 entries; a call returns true exactly when the history is
empty, the action changed, or the score moved by at least 10 in absolute
value; in that case it appends the new entry, evicting the oldest when a 21st
would be stored, and otherwise leaves the history unchanged returning false. -/
theorem recordSignal_spec :
    (∀ sigs : List SignalOutput,
      (sigs.foldl (fun h s => (recordSignal h s).1) []).length ≤ 20) ∧
    (∀ (hist : List HistoryEntry) (s : SignalOutput),
      ((recordSignal hist s).2 = true ↔
        (hist = [] ∨ ∃ lastSig, hist.getLast? = some lastSig ∧
          (lastSig.action ≠ s.action ∨ 10 ≤ |lastSig.score - s.score|))) ∧
      (shouldRecord hist s = false → recordSignal hist s = (hist, false)) ∧
      (shouldRecord hist s = true →
        (recordSignal hist s).1 =
          (if 20 < hist.length + 1 then (hist ++ [mkHistoryEntry s]).tail
          else hist ++ [mkHistoryEntry s]))) := by
  refine ⟨fun sigs => foldl_record_length sigs [] (by simp), fun hist s => ⟨?_, ?_, ?_⟩⟩
  · rw [recordSignal_snd]
    exact shouldRecord_iff hist s
  · intro hf
    rw [recordSignal, if_neg (by simp [hf])]
  · intro ht
    simp only [recordSignal, if_pos ht, MAX_HISTORY, mkHistoryEntry]
    simp [List.length_append]

/-- Concrete signal output used to exercise `recordSignal` (action BUY,
score 40). -/
def sigC8 : SignalOutput :=
  ⟨40, .buy, "🟡", "#ffdd00", .moderate, ⟨some 100, some 97, [], some 1⟩,
   .wait "w" none none, [], 0, none, none, none, none, none, none, none⟩

theorem recordSignal_spec_witness :
    (recordSignal [] sigC8).2 = true ∧
    recordSignal [⟨.buy, 40, none, 0, "c"⟩] sigC8 = ([⟨.buy, 40, none, 0, "c"⟩], false) := by
  have h := recordSignal_spec
  constructor
  · exact (h.2 [] sigC8).1.mpr (Or.inl rfl)
  · exact (h.2 [⟨.buy, 40, none, 0, "c"⟩] sigC8).2.1 (by decide)

/-- C9: the scoring path is pure and reads no hidden state: for any two prior
histories and any two clock readings, `computeAll` followed by
`generateSignal` on identical candles and timeframe produces identical
IndicatorSnapshot, score, action, level, Targets, TradePlan and breakdown, so
prior `recordSignal` calls cannot change any of these outputs. -/
theorem pipeline_pure (h1 h2 : List HistoryEntry) (candles : List Candle)
    (timeframe : String) (now1 now2 : ℤ) :
    (runPipeline h1 candles timeframe now1).1 = (runPipeline h2 candles timeframe now2).1 ∧
    (runPipeline h1 candles timeframe now1).2.1.score =
      (runPipeline h2 candles timeframe now2).2.1.score ∧
    (runPipeline h1 candles timeframe now1).2.1.action =
      (runPipeline h2 candles timeframe now2).2.1.action ∧
    (runPipeline h1 candles timeframe now1).2.1.level =
      (runPipeline h2 candles timeframe now2).2.1.level ∧
    (runPipeline h1 candles timeframe now1).2.1.targets =
      (runPipeline h2 candles timeframe now2).2.1.targets ∧
    (runPipeline h1 candles timeframe now1).2.1.tradePlan =
      (runPipeline h2 candles timeframe now2).2.1.tradePlan ∧
    (runPipeline h1 candles timeframe now1).2.1.breakdown =
      (runPipeline h2 candles timeframe now2).2.1.breakdown :=
  ⟨rfl, rfl, rfl, rfl, rfl, rfl, rfl⟩

theorem getQ_replicate {n : ℕ} (x : ℚ) {i : ℕ} (h : i < n) :
    getQ (List.replicate n x) i = x := by
  rw [getQ, List.getD_eq_getElem?_getD, List.getElem?_replicate_of_lt h]
  rfl

theorem obvRec_const_closes (c : ℚ) (pairs : List (ℚ × ℚ)) :
    ∀ acc : ℚ, (∀ x ∈ pairs, x.1 = c) →
      obvRec c acc pairs = List.replicate pairs.length acc := by
  induction pairs with
  | nil => intro acc _; rfl
  | cons hd tl ih =>
    intro acc hp
    obtain ⟨c2, v⟩ := hd
    have hc2 : c2 = c := hp (c2, v) (List.mem_cons_self _ _)
    subst hc2
    simp only [obvRec, if_neg (lt_irrefl c2), List.length_cons, List.replicate_succ]
    exact congrArg (acc :: ·) (ih acc fun x hx => hp x (List.mem_cons_of_mem _ hx))

/-- C10: for every candle series of length at least 6 the snapshot's OBV
trend is `rising` exactly when the final OBV strictly exceeds the OBV value
five bars earlier, and `falling` in every other case — never `neutral`; a
series whose closes are all equal has constant OBV and is classified
`falling`; and a `falling` trend always contributes a strictly negative
(bearish) volume sub-signal. -/
theorem obv_trend_dichotomy :
    (∀ candles : List Candle, 6 ≤ candles.length →
      ((computeAll candles).obv.trend = .rising ↔
        getQ (obv (closesOf candles) (volumesOf candles)) (candles.length - 1 - 5) <
          getQ (obv (closesOf candles) (volumesOf candles)) (candles.length - 1)) ∧
      ((computeAll candles).obv.trend = .falling ↔
        ¬ getQ (obv (closesOf candles) (volumesOf candles)) (candles.length - 1 - 5) <
          getQ (obv (closesOf candles) (volumesOf candles)) (candles.length - 1)) ∧
      (computeAll candles).obv.trend ≠ .neutral) ∧
    (∀ (candles : List Candle) (c : ℚ), 6 ≤ candles.length →
      closesOf candles = List.replicate candles.length c →
      (computeAll candles).obv.trend = .falling) ∧
    (∀ snap : IndicatorSnapshot, snap.obv.trend = .falling →
      (getIndicatorSignals snap).volumeOBV < 0) := by
  refine ⟨?_, ?_, ?_⟩
  · intro candles hlen
    have h5 : 5 < candles.length := by omega
    simp only [computeAll, obvInfoOf, if_pos h5]
    by_cases hcmp : getQ (obv (closesOf candles) (volumesOf candles)) (candles.length - 1 - 5) <
        getQ (obv (closesOf candles) (volumesOf candles)) (candles.length - 1)
    · rw [if_pos hcmp]
      exact ⟨⟨fun _ => hcmp, fun _ => rfl⟩, ⟨fun h => by simp at h, fun h => absurd hcmp h⟩,
        by simp⟩
    · rw [if_neg hcmp]
      exact ⟨⟨fun h => by simp at h, fun h => absurd h hcmp⟩, ⟨fun _ => hcmp, fun _ => rfl⟩,
        by simp⟩
  · intro candles c hlen hflat
    have h5 : 5 < candles.length := by omega
    obtain ⟨m, hm⟩ : ∃ m, candles.length = m + 1 := ⟨candles.length - 1, by omega⟩
    have hvlen : (volumesOf candles).length = m + 1 := by
      rw [volumesOf, List.length_map, hm]
    obtain ⟨v, vs, hv⟩ : ∃ v vs, volumesOf candles = v :: vs := by
      cases hvol : volumesOf candles with
      | nil => rw [hvol] at hvlen; simp at hvlen
      | cons v vs => exact ⟨v, vs, rfl⟩
    have hvs : vs.length = m := by
      rw [hv] at hvlen
      simpa using hvlen
    have hob : obv (closesOf candles) (volumesOf candles) = List.replicate (m + 1) v := by
      rw [hflat, hm, hv, List.replicate_succ]
      simp only [obv]
      rw [obvRec_const_closes c _ v fun x hx => List.eq_of_mem_replicate (List.of_mem_zip hx).1]
      rw [List.length_zip, List.length_replicate, hvs, min_self, List.replicate_succ]
    simp only [computeAll, obvInfoOf, if_pos h5, hob]
    rw [if_neg (by
      rw [getQ_replicate v (by omega), getQ_replicate v (by omega)]
      exact lt_irrefl v)]
  · intro snap hfall
    simp only [getIndicatorSignals, hfall]
    split_ifs with hA hB
    · exact absurd hA.2 (by norm_num)
    · exact max_lt (by norm_num) (by norm_num)
    · norm_num

/-- Six flat candles (all prices 10, volume 5). -/
def candlesC10 : List Candle := List.replicate 6 ⟨0, 10, 10, 10, 10, 5⟩

/-- Concrete snapshot whose OBV trend is `falling`. -/
def snapC10 : IndicatorSnapshot :=
  ⟨⟨10, 10, 10, 10, 5⟩,
   ⟨none, none, none, none, false, false, false, false⟩,
   ⟨none, none, false, false, ⟨.noDiv, 0⟩⟩,
   ⟨none, none, none, none, false, false, false, ⟨.noDiv, 0⟩⟩,
   ⟨none, none, none, none, none, false, false, false⟩,
   ⟨none, none, false, false, false, false⟩,
   ⟨none, none, none, false, false⟩,
   ⟨none, none⟩,
   ⟨none, false⟩,
   ⟨none, .falling⟩,
   ⟨10, 10, [], false⟩,
   ⟨[], [], [], [], [], ⟨[], [], []⟩, ⟨[], [], [], [], []⟩, ⟨[], []⟩, []⟩⟩

theorem obv_trend_dichotomy_witness :
    (computeAll candlesC10).obv.trend = .falling ∧
    (getIndicatorSignals snapC10).volumeOBV < 0 := by
  have h := obv_trend_dichotomy
  exact ⟨h.2.1 candlesC10 10 (by decide) (by decide), h.2.2 snapC10 rfl⟩

theorem sum_replicate_q (n : ℕ) (c : ℚ) : (List.replicate n c).sum = (n : ℚ) * c := by
  rw [List.sum_replicate, nsmul_eq_mul]

theorem getElem?_rep_app {α : Type} (a b : ℕ) (y x : α) (i : ℕ) :
    (List.replicate a y ++ List.replicate b x)[i]? =
      if i < a then some y else if i < a + b then some x else none := by
  by_cases h1 : i < a
  · rw [List.getElem?_append_left (by simpa using h1), List.getElem?_replicate_of_lt h1,
      if_pos h1]
  · rw [List.getElem?_append_right (by simpa using (by omega : a ≤ i)), List.length_replicate,
      List.getElem?_replicate, if_neg h1]
    by_cases h2 : i < a + b
    · rw [if_pos (by omega), if_pos h2]
    · rw [if_neg (by omega), if_neg h2]

theorem getO_pattern_some {a b : ℕ} (x : ℚ) {i : ℕ} (h1 : a ≤ i) (h2 : i < a + b) :
    getO (List.replicate a none ++ List.replicate b (some x)) i = some x := by
  rw [getO, List.getD_eq_getElem?_getD, getElem?_rep_app, if_neg (by omega), if_pos h2]
  rfl

theorem getO_replicate_none (n i : ℕ) :
    getO (List.replicate n (none : Option ℚ)) i = none := by
  rw [getO, List.getD_eq_getElem?_getD, List.getElem?_replicate]
  split <;> rfl

theorem map_range_eq_pattern (n a : ℕ) (f : ℕ → Option ℚ) (x : ℚ) (han : a ≤ n)
    (h1 : ∀ i, i < a → f i = none) (h2 : ∀ i, a ≤ i → i < n → f i = some x) :
    (List.range n).map f = List.replicate a none ++ List.replicate (n - a) (some x) := by
  apply List.ext_getElem?
  intro i
  rw [List.getElem?_map, getElem?_rep_app]
  by_cases hi : i < n
  · rw [List.getElem?_range hi]
    by_cases hia : i < a
    · rw [if_pos hia]
      simp [h1 i hia]
    · rw [if_neg hia, if_pos (by omega)]
      simp [h2 i (by omega) hi]
  · rw [List.getElem?_eq_none (by simp only [List.length_range]; omega),
      if_neg (by omega), if_neg (by omega)]
    rfl

theorem map_range_eq_const (n : ℕ) (f : ℕ → ℚ) (x : ℚ) (h : ∀ i, i < n → f i = x) :
    (List.range n).map f = List.replicate n x := by
  apply List.ext_getElem?
  intro i
  rw [List.getElem?_map, List.getElem?_replicate]
  by_cases hi : i < n
  · rw [List.getElem?_range hi, if_pos hi]
    simp [h i hi]
  · rw [List.getElem?_eq_none (by simp only [List.length_range]; omega), if_neg hi]
    rfl

theorem map_range_eq_none (n : ℕ) (f : ℕ → Option ℚ) (h : ∀ i, i < n → f i = none) :
    (List.range n).map f = List.replicate n (none : Option ℚ) := by
  apply List.ext_getElem?
  intro i
  rw [List.getElem?_map, List.getElem?_replicate]
  by_cases hi : i < n
  · rw [List.getElem?_range hi, if_pos hi]
    simp [h i hi]
  · rw [List.getElem?_eq_none (by simp only [List.length_range]; omega), if_neg hi]
    rfl

theorem filterMap_id_replicate_none (a : ℕ) :
    (List.replicate a (none : Option ℚ)).filterMap id = [] := by
  induction a with
  | zero => rfl
  | succ a ih => rw [List.replicate_succ]; simp [ih]

theorem filterMap_id_replicate_some (b : ℕ) (x : ℚ) :
    (List.replicate b (some x)).filterMap id = List.replicate b x := by
  induction b with
  | zero => rfl
  | succ b ih => rw [List.replicate_succ, List.replicate_succ]; simp [ih]

theorem filterMap_id_pattern (a b : ℕ) (x : ℚ) :
    (List.replicate a (none : Option ℚ) ++ List.replicate b (some x)).filterMap id =
      List.replicate b x := by
  rw [List.filterMap_append, filterMap_id_replicate_none, filterMap_id_replicate_some,
    List.nil_append]

theorem foldl_min_replicate (k : ℕ) (c : ℚ) : (List.replicate k c).foldl min c = c := by
  induction k with
  | zero => rfl
  | succ k ih => rw [List.replicate_succ, List.foldl_cons, min_self]; exact ih

theorem foldl_max_replicate (k : ℕ) (c : ℚ) : (List.replicate k c).foldl max c = c := by
  induction k with
  | zero => rfl
  | succ k ih => rw [List.replicate_succ, List.foldl_cons, max_self]; exact ih

theorem listMin_replicate (m : ℕ) (c : ℚ) (hm : 1 ≤ m) : listMin (List.replicate m c) = c := by
  obtain ⟨k, rfl⟩ : ∃ k, m = k + 1 := ⟨m - 1, by omega⟩
  rw [List.replicate_succ]
  simp only [listMin]
  exact foldl_min_replicate k c

theorem listMax_replicate (m : ℕ) (c : ℚ) (hm : 1 ≤ m) : listMax (List.replicate m c) = c := by
  obtain ⟨k, rfl⟩ : ∃ k, m = k + 1 := ⟨m - 1, by omega⟩
  rw [List.replicate_succ]
  simp only [listMax]
  exact foldl_max_replicate k c

theorem sma_replicate (n p : ℕ) (c : ℚ) (hp : 1 ≤ p) (hpn : p ≤ n) :
    sma (List.replicate n c) p =
      List.replicate (p - 1) none ++ List.replicate (n - (p - 1)) (some c) := by
  rw [sma, List.length_replicate]
  apply map_range_eq_pattern n (p - 1) _ c (by omega)
  · intro i hi
    rw [if_neg (by omega)]
  · intro i hi1 hi2
    rw [if_pos hi1, List.drop_replicate, List.take_replicate]
    have hmin : min p (n - (i + 1 - p)) = p := by omega
    rw [hmin, sum_replicate_q, mul_div_cancel_left₀ c (by exact_mod_cast (by omega : p ≠ 0))]

theorem emaFrom_const (alpha c : ℚ) (k : ℕ) :
    emaFrom alpha c (List.replicate k c) = List.replicate k c := by
  induction k with
  | zero => rfl
  | succ k ih =>
    rw [List.replicate_succ]
    simp only [emaFrom]
    rw [show alpha * c + (1 - alpha) * c = c by ring, ih]

theorem ema_replicate (n p : ℕ) (c : ℚ) (hp : 1 ≤ p) (hpn : p ≤ n) :
    ema (List.replicate n c) p =
      List.replicate (p - 1) none ++ List.replicate (n - (p - 1)) (some c) := by
  rw [ema, List.length_replicate, if_neg (by omega)]
  simp only [List.take_replicate, min_eq_left hpn, sum_replicate_q,
    mul_div_cancel_left₀ c (by exact_mod_cast (by omega : p ≠ 0) : (p : ℚ) ≠ 0),
    List.drop_replicate, emaFrom_const, List.map_replicate]
  have h1 : n - (p - 1) = (n - p) + 1 := by omega
  rw [h1, List.replicate_succ]

theorem rsiRec_zeros (p : ℚ) (k : ℕ) :
    rsiRec p 0 0 (List.replicate k (0, 0)) = List.replicate k 100 := by
  induction k with
  | zero => rfl
  | succ k ih =>
    rw [List.replicate_succ, List.replicate_succ]
    simp only [rsiRec]
    rw [show ((0 : ℚ) * (p - 1) + 0) / p = 0 by simp]
    rw [rsiVal, if_pos rfl, ih]

theorem rsi_replicate (n p : ℕ) (c : ℚ) (hp : 1 ≤ p) (hpn : p + 1 ≤ n) :
    rsi (List.replicate n c) p =
      List.replicate p none ++ List.replicate (n - p) (some 100) := by
  have hmin1 : min (n - 1) n = n - 1 := by omega
  have hg : (if (0:ℚ) < 0 then (0:ℚ) else 0) = 0 := by norm_num
  have hl : (if (0:ℚ) < 0 then -(0:ℚ) else 0) = 0 := by norm_num
  have hrv : rsiVal 0 0 = 100 := by rw [rsiVal, if_pos rfl]
  rw [rsi, List.length_replicate, if_neg (by omega)]
  simp only [List.drop_replicate, List.zipWith_replicate, hmin1, sub_self, List.map_replicate,
    hg, hl, List.take_replicate, sum_replicate_q, mul_zero, zero_div, List.zip_replicate,
    min_self, rsiRec_zeros, hrv]
  have h1 : n - p = (n - 1 - p) + 1 := by omega
  rw [h1, List.replicate_succ]

theorem zipWith_optSub_pattern (a b n : ℕ) (x y : ℚ) (hab : a ≤ b) (hbn : b ≤ n) :
    List.zipWith optSub (List.replicate a none ++ List.replicate (n - a) (some x))
      (List.replicate b none ++ List.replicate (n - b) (some y)) =
      List.replicate b none ++ List.replicate (n - b) (some (x - y)) := by
  apply List.ext_getElem?
  intro i
  rw [List.getElem?_zipWith, getElem?_rep_app, getElem?_rep_app, getElem?_rep_app]
  split_ifs <;> first | rfl | omega

theorem remapSignal_leading_nones (a : ℕ) (l sig : List (Option ℚ)) :
    remapSignal (List.replicate a none ++ l) sig =
      List.replicate a none ++ remapSignal l sig := by
  induction a with
  | zero => simp
  | succ a ih =>
    rw [List.replicate_succ, List.cons_append]
    simp only [remapSignal]
    rw [ih, List.cons_append]

theorem remapSignal_some_block (b : ℕ) (x : ℚ) :
    ∀ sig : List (Option ℚ), sig.length = b →
      remapSignal (List.replicate b (some x)) sig = sig := by
  induction b with
  | zero =>
    intro sig h
    rw [List.length_eq_zero] at h
    subst h
    rfl
  | succ b ih =>
    intro sig h
    cases sig with
    | nil => simp at h
    | cons s rest =>
      rw [List.replicate_succ]
      simp only [remapSignal, List.head?_cons, Option.getD_some, List.drop_succ_cons,
        List.drop_zero]
      rw [ih rest (by simpa using h)]

theorem macd_replicate (n : ℕ) (c : ℚ) (hn : 34 ≤ n) :
    macd (List.replicate n c) 12 26 9 =
      ⟨List.replicate 25 none ++ List.replicate (n - 25) (some 0),
       List.replicate 33 none ++ List.replicate (n - 33) (some 0),
       List.replicate 33 none ++ List.replicate (n - 33) (some 0)⟩ := by
  have hf : ema (List.replicate n c) 12 =
      List.replicate 11 none ++ List.replicate (n - 11) (some c) := by
    have h := ema_replicate n 12 c (by norm_num) (by omega)
    norm_num at h
    exact h
  have hs : ema (List.replicate n c) 26 =
      List.replicate 25 none ++ List.replicate (n - 25) (some c) := by
    have h := ema_replicate n 26 c (by norm_num) (by omega)
    norm_num at h
    exact h
  have hml : List.zipWith optSub (List.replicate 11 none ++ List.replicate (n - 11) (some c))
      (List.replicate 25 none ++ List.replicate (n - 25) (some c)) =
      List.replicate 25 none ++ List.replicate (n - 25) (some 0) := by
    have h := zipWith_optSub_pattern 11 25 n c c (by norm_num) (by omega)
    rw [sub_self] at h
    exact h
  have hfm : (List.replicate 25 (none : Option ℚ) ++
      List.replicate (n - 25) (some (0:ℚ))).filterMap id = List.replicate (n - 25) 0 :=
    filterMap_id_pattern 25 (n - 25) 0
  have hse : ema (List.replicate (n - 25) (0:ℚ)) 9 =
      List.replicate 8 none ++ List.replicate (n - 25 - 8) (some 0) := by
    have h := ema_replicate (n - 25) 9 0 (by norm_num) (by omega)
    norm_num at h
    exact h
  have hsig : remapSignal (List.replicate 25 none ++ List.replicate (n - 25) (some 0))
      (List.replicate 8 none ++ List.replicate (n - 25 - 8) (some 0)) =
      List.replicate 33 none ++ List.replicate (n - 33) (some 0) := by
    rw [remapSignal_leading_nones, remapSignal_some_block (n - 25) 0 _
      (by simp only [List.length_append, List.length_replicate]; omega)]
    rw [← List.append_assoc, ← List.replicate_add]
    rw [show 25 + 8 = 33 from by norm_num, show n - 25 - 8 = n - 33 from by omega]
  have hhist : List.zipWith optSub (List.replicate 25 none ++ List.replicate (n - 25) (some 0))
      (List.replicate 33 none ++ List.replicate (n - 33) (some 0)) =
      List.replicate 33 none ++ List.replicate (n - 33) (some 0) := by
    have h := zipWith_optSub_pattern 25 33 n 0 0 (by norm_num) (by omega)
    rw [sub_self] at h
    exact h
  rw [macd]
  simp only [hf, hs, hml, hfm, hse, hsig, hhist]

theorem bbStdDev_replicate (n : ℕ) (c : ℚ) (i : ℕ) (hi1 : 19 ≤ i) (hi2 : i < n) :
    bbStdDev (List.replicate n c) 20 i = 0 := by
  have hm : getO (sma (List.replicate n c) 20) i = some c := by
    have h := sma_replicate n 20 c (by norm_num) (by omega)
    norm_num at h
    rw [h]
    exact getO_pattern_some c (by omega) (by omega)
  rw [bbStdDev]
  simp only [hm, Option.getD_some, List.drop_replicate, List.take_replicate]
  rw [show min 20 (n - (i + 1 - 20)) = 20 from by omega, List.map_replicate, sub_self]
  rw [show ((0:ℚ) ^ 2) = 0 from by norm_num, sum_replicate_q, mul_zero, zero_div]
  have h := Rat.sqrt_eq 0
  rw [mul_zero] at h
  rw [h, abs_zero]

theorem bollingerBands_replicate (n : ℕ) (c : ℚ) (hn : 20 ≤ n) :
    bollingerBands (List.replicate n c) 20 2 =
      ⟨List.replicate 19 none ++ List.replicate (n - 19) (some c),
       List.replicate 19 none ++ List.replicate (n - 19) (some c),
       List.replicate 19 none ++ List.replicate (n - 19) (some c),
       List.replicate n none, List.replicate n none⟩ := by
  have hsma : sma (List.replicate n c) 20 =
      List.replicate 19 none ++ List.replicate (n - 19) (some c) := by
    have h := sma_replicate n 20 c (by norm_num) (by omega)
    norm_num at h
    exact h
  have hrow : ∀ i, 19 ≤ i → i < n →
      bbRow (List.replicate n c) 20 2 i = (some c, some c, none, none) := by
    intro i h1 h2
    have hm : getO (sma (List.replicate n c) 20) i = some c := by
      rw [hsma]
      exact getO_pattern_some c (by omega) (by omega)
    rw [bbRow]
    simp only [hm, Option.getD_some, bbStdDev_replicate n c i h1 h2]
    norm_num
  rw [bollingerBands, List.length_replicate]
  simp only [hsma]
  congr 1
  · exact map_range_eq_pattern n 19 _ c (by omega)
      (fun i hi => by rw [if_neg (by omega)])
      (fun i hi1 hi2 => by rw [if_pos (by omega), hrow i hi1 hi2])
  · exact map_range_eq_pattern n 19 _ c (by omega)
      (fun i hi => by rw [if_neg (by omega)])
      (fun i hi1 hi2 => by rw [if_pos (by omega), hrow i hi1 hi2])
  · exact map_range_eq_none n _ (fun i hi => by
      by_cases h19 : 19 ≤ i
      · rw [if_pos (by omega), hrow i h19 hi]
      · rw [if_neg (by omega)])
  · exact map_range_eq_none n _ (fun i hi => by
      by_cases h19 : 19 ≤ i
      · rw [if_pos (by omega), hrow i h19 hi]
      · rw [if_neg (by omega)])

theorem stochastic_replicate (n : ℕ) (c : ℚ) (hn : 16 ≤ n) :
    stochastic (List.replicate n c) (List.replicate n c) (List.replicate n c) 14 3 =
      ⟨List.replicate 13 none ++ List.replicate (n - 13) (some 50),
       List.replicate 15 none ++ List.replicate (n - 15) (some 50)⟩ := by
  have hk : (List.range n).map (fun i =>
      if 14 - 1 ≤ i then
        some (if 0 < listMax ((( List.replicate n c).drop (i + 1 - 14)).take 14) -
            listMin (((List.replicate n c).drop (i + 1 - 14)).take 14) then
          (getQ (List.replicate n c) i -
            listMin (((List.replicate n c).drop (i + 1 - 14)).take 14)) /
            (listMax (((List.replicate n c).drop (i + 1 - 14)).take 14) -
              listMin (((List.replicate n c).drop (i + 1 - 14)).take 14)) * 100
        else 50)
      else none) = List.replicate 13 none ++ List.replicate (n - 13) (some 50) := by
    apply map_range_eq_pattern n 13 _ 50 (by omega)
    · intro i hi
      rw [if_neg (by omega)]
    · intro i hi1 hi2
      rw [List.drop_replicate, List.take_replicate,
        show min 14 (n - (i + 1 - 14)) = 14 from by omega,
        listMin_replicate 14 c (by norm_num), listMax_replicate 14 c (by norm_num), sub_self]
      rw [if_pos (by omega), if_neg (lt_irrefl 0)]
  have hd : sma (List.replicate (n - 13) (50:ℚ)) 3 =
      List.replicate 2 none ++ List.replicate (n - 13 - 2) (some 50) := by
    have h := sma_replicate (n - 13) 3 50 (by norm_num) (by omega)
    norm_num at h
    exact h
  rw [stochastic, List.length_replicate]
  simp only [hk, filterMap_id_pattern, hd]
  rw [remapSignal_leading_nones, remapSignal_some_block (n - 13) 50 _
    (by simp only [List.length_append, List.length_replicate]; omega)]
  rw [← List.append_assoc, ← List.replicate_add]
  rw [show 13 + 2 = 15 from by norm_num, show n - 13 - 2 = n - 15 from by omega]

theorem diOf_zero : diOf (0, 0, 0) = ((0:ℚ), (0:ℚ)) := by
  rw [diOf]
  norm_num

theorem adxStep_zero (p : ℚ) : adxStep p (0, 0, 0) (0, 0, 0) = (0, 0, 0) := by
  rw [adxStep]
  norm_num

theorem adxEmitRest_zeros (p : ℚ) (k : ℕ) :
    adxEmitRest p (0, 0, 0) (List.replicate k (0, 0, 0)) =
      List.replicate k ((0:ℚ), (0:ℚ)) := by
  induction k with
  | zero => rfl
  | succ k ih =>
    rw [List.replicate_succ, List.replicate_succ]
    simp only [adxEmitRest, adxStep_zero, diOf_zero]
    rw [ih]

theorem dxOf_zero : dxOf (0, 0) = (0:ℚ) := by
  rw [dxOf]
  norm_num

theorem wilderScan_zeros (p : ℚ) (k : ℕ) :
    wilderScan p 0 (List.replicate k 0) = List.replicate k 0 := by
  induction k with
  | zero => rfl
  | succ k ih =>
    rw [List.replicate_succ]
    simp only [wilderScan]
    rw [show ((0:ℚ) * (p - 1) + 0) / p = 0 from by simp]
    rw [ih]

theorem adx_replicate (n : ℕ) (c : ℚ) (hn : 29 ≤ n) :
    adx (List.replicate n c) (List.replicate n c) (List.replicate n c) 14 =
      ⟨List.replicate 28 none ++ List.replicate (n - 28) (some 0),
       List.replicate 15 none ++ List.replicate (n - 15) (some 0),
       List.replicate 15 none ++ List.replicate (n - 15) (some 0)⟩ := by
  have htr : List.map (fun j =>
      max (getQ (List.replicate n c) (j + 1) - getQ (List.replicate n c) (j + 1))
        (max |getQ (List.replicate n c) (j + 1) - getQ (List.replicate n c) j|
          |getQ (List.replicate n c) (j + 1) - getQ (List.replicate n c) j|))
      (List.range (n - 1)) = List.replicate (n - 1) (0:ℚ) := by
    apply map_range_eq_const
    intro j hj
    rw [getQ_replicate c (show j + 1 < n from by omega),
      getQ_replicate c (show j < n from by omega)]
    simp
  have hpdm : List.map (fun j =>
      let upMove := getQ (List.replicate n c) (j + 1) - getQ (List.replicate n c) j
      let downMove := getQ (List.replicate n c) j - getQ (List.replicate n c) (j + 1)
      if downMove < upMove ∧ 0 < upMove then upMove else 0)
      (List.range (n - 1)) = List.replicate (n - 1) (0:ℚ) := by
    apply map_range_eq_const
    intro j hj
    simp only []
    rw [getQ_replicate c (show j + 1 < n from by omega),
      getQ_replicate c (show j < n from by omega)]
    simp
  have hmdm : List.map (fun j =>
      let upMove := getQ (List.replicate n c) (j + 1) - getQ (List.replicate n c) j
      let downMove := getQ (List.replicate n c) j - getQ (List.replicate n c) (j + 1)
      if upMove < downMove ∧ 0 < downMove then downMove else 0)
      (List.range (n - 1)) = List.replicate (n - 1) (0:ℚ) := by
    apply map_range_eq_const
    intro j hj
    simp only []
    rw [getQ_replicate c (show j + 1 < n from by omega),
      getQ_replicate c (show j < n from by omega)]
    simp
  rw [adx, List.length_replicate, if_neg (by omega)]
  simp only [htr, hpdm, hmdm, List.take_replicate, sum_replicate_q, mul_zero,
    List.zip_replicate, min_self, List.drop_replicate]
  rw [show List.replicate (n - 1 - (14 + 1)) ((0:ℚ), (0:ℚ), (0:ℚ)) =
    List.replicate (n - 16) (0, 0, 0) from by rw [show n - 1 - (14 + 1) = n - 16 from by omega]]
  simp only [adxEmitRest_zeros, diOf_zero]
  rw [show ((0:ℚ), (0:ℚ)) :: List.replicate (n - 16) ((0:ℚ), (0:ℚ)) =
    List.replicate (n - 15) (0, 0) from by
      rw [show n - 15 = (n - 16) + 1 from by omega, List.replicate_succ]]
  simp only [List.map_replicate, dxOf_zero, List.take_replicate, List.drop_replicate]
  rw [show min 14 (n - 15) = 14 from by omega]
  simp only [sum_replicate_q, mul_zero, zero_div, wilderScan_zeros, List.map_replicate]
  rw [show (14 : ℕ) * 2 = 28 from by norm_num, show (14 : ℕ) + 1 = 15 from by norm_num,
    show n - 15 - 14 = n - 29 from by omega]
  rw [show (some (0:ℚ)) :: List.replicate (n - 29) (some (0:ℚ)) =
    List.replicate (n - 28) (some 0) from by
      rw [show n - 28 = (n - 29) + 1 from by omega, List.replicate_succ]]

theorem atr_replicate (n : ℕ) (c : ℚ) (hn : 15 ≤ n) :
    atr (List.replicate n c) (List.replicate n c) (List.replicate n c) 14 =
      List.replicate 13 none ++ List.replicate (n - 13) (some 0) := by
  have htr : List.map (fun j =>
      max (getQ (List.replicate n c) (j + 1) - getQ (List.replicate n c) (j + 1))
        (max |getQ (List.replicate n c) (j + 1) - getQ (List.replicate n c) j|
          |getQ (List.replicate n c) (j + 1) - getQ (List.replicate n c) j|))
      (List.range (n - 1)) = List.replicate (n - 1) (0:ℚ) := by
    apply map_range_eq_const
    intro j hj
    rw [getQ_replicate c (show j + 1 < n from by omega),
      getQ_replicate c (show j < n from by omega)]
    simp
  have hfold : (getQ (List.replicate n c) 0 - getQ (List.replicate n c) 0) ::
      List.replicate (n - 1) (0:ℚ) = List.replicate n 0 := by
    rw [sub_self]
    obtain ⟨m, rfl⟩ : ∃ m, n = m + 1 := ⟨n - 1, by omega⟩
    rw [List.replicate_succ]
    simp
  rw [atr, List.length_replicate, if_neg (by omega)]
  simp only [htr, hfold, List.take_replicate, List.drop_replicate]
  rw [show min 14 n = 14 from by omega]
  simp only [sum_replicate_q, mul_zero, zero_div, wilderScan_zeros, List.map_replicate]
  rw [show (14:ℕ) - 1 = 13 from by norm_num, show n - 13 = (n - 14) + 1 from by omega]
  congr 1

theorem vwapRec_const (c v : ℚ) (hv : 0 < v) (k : ℕ) :
    ∀ m : ℚ, 0 ≤ m → vwapRec (c * m) m (List.replicate k (c, c, c, v)) = List.replicate k c := by
  induction k with
  | zero => intro m _; rfl
  | succ k ih =>
    intro m hm
    rw [List.replicate_succ, List.replicate_succ]
    simp only [vwapRec]
    rw [show (c + c + c) / 3 = c from by ring]
    have hvol : (0:ℚ) < m + v := by linarith
    rw [if_pos hvol]
    rw [show c * m + c * v = c * (m + v) from by ring]
    rw [mul_div_cancel_right₀ c (ne_of_gt hvol)]
    rw [ih (m + v) (by linarith)]

theorem vwap_replicate (n : ℕ) (c v : ℚ) (hv : 0 < v) :
    vwap (List.replicate n c) (List.replicate n c) (List.replicate n c) (List.replicate n v) =
      List.replicate n c := by
  rw [vwap, List.zip_replicate, List.zip_replicate, List.zip_replicate, min_self, min_self,
    min_self]
  have h := vwapRec_const c v hv n 0 le_rfl
  rw [mul_zero] at h
  exact h

theorem obv_replicate (n : ℕ) (c v : ℚ) (hn : 1 ≤ n) :
    obv (List.replicate n c) (List.replicate n v) = List.replicate n v := by
  obtain ⟨m, rfl⟩ : ∃ m, n = m + 1 := ⟨n - 1, by omega⟩
  rw [List.replicate_succ, List.replicate_succ]
  simp only [obv]
  rw [List.zip_replicate, min_self,
    obvRec_const_closes c _ v (fun x hx => by rw [List.eq_of_mem_replicate hx]),
    List.length_replicate]

theorem pivotLows_replicate (n : ℕ) (c : ℚ) (osc : List (Option ℚ)) (lookback : ℕ) :
    pivotLows (List.replicate n c) osc lookback = [] := by
  rw [pivotLows, List.length_replicate]
  rw [List.filterMap_eq_nil_iff]
  intro i hi
  rw [List.mem_range] at hi
  split
  · cases hosc : getO osc i with
    | none => rfl
    | some r =>
      exact if_neg (by
        rintro ⟨h1, -⟩
        rw [getQ_replicate c (by omega), getQ_replicate c (by omega)] at h1
        exact lt_irrefl c h1)
  · rfl

theorem pivotHighs_replicate (n : ℕ) (c : ℚ) (osc : List (Option ℚ)) (lookback : ℕ) :
    pivotHighs (List.replicate n c) osc lookback = [] := by
  rw [pivotHighs, List.length_replicate]
  rw [List.filterMap_eq_nil_iff]
  intro i hi
  rw [List.mem_range] at hi
  split
  · cases hosc : getO osc i with
    | none => rfl
    | some r =>
      exact if_neg (by
        rintro ⟨h1, -⟩
        rw [getQ_replicate c (by omega), getQ_replicate c (by omega)] at h1
        exact lt_irrefl c h1)
  · rfl

theorem detectRSIDivergence_replicate (n : ℕ) (c : ℚ) (osc : List (Option ℚ)) :
    detectRSIDivergence (List.replicate n c) osc 30 = ⟨.noDiv, 0⟩ := by
  rw [detectRSIDivergence]
  split
  · rfl
  · simp only [pivotLows_replicate, pivotHighs_replicate]
    rfl

theorem detectMACDDivergence_replicate (n : ℕ) (c : ℚ) (osc : List (Option ℚ)) :
    detectMACDDivergence (List.replicate n c) osc 30 = ⟨.noDiv, 0⟩ := by
  rw [detectMACDDivergence]
  split
  · rfl
  · simp only [pivotLows_replicate, pivotHighs_replicate]
    rfl

theorem rsiInfoOf_flat (candles : List Candle) (n : ℕ) (c : ℚ) (hn : candles.length = n)
    (h200 : 200 ≤ n) (hclose : closesOf candles = List.replicate n c) :
    rsiInfoOf candles = ⟨some 100, some 100, true, false, ⟨.noDiv, 0⟩⟩ := by
  have hr : rsi (List.replicate n c) 14 =
      List.replicate 14 none ++ List.replicate (n - 14) (some 100) :=
    rsi_replicate n 14 c (by norm_num) (by omega)
  rw [rsiInfoOf]
  simp only [hclose, hn, hr, detectRSIDivergence_replicate]
  rw [if_pos (by omega : 0 < n - 1)]
  rw [getO_pattern_some 100 (by omega) (by omega)]
  rw [getO_pattern_some 100 (by omega) (by omega)]
  norm_num [jsGTo, jsLTo]

theorem emaInfoOf_flat (candles : List Candle) (n : ℕ) (c : ℚ) (hn : candles.length = n)
    (h200 : 200 ≤ n) (hclose : closesOf candles = List.replicate n c) :
    emaInfoOf candles = ⟨some c, some c, some c, some c, false, false, false, false⟩ := by
  have h9 : ema (List.replicate n c) 9 =
      List.replicate 8 none ++ List.replicate (n - 8) (some c) := by
    have h := ema_replicate n 9 c (by norm_num) (by omega)
    norm_num at h
    exact h
  have h21 : ema (List.replicate n c) 21 =
      List.replicate 20 none ++ List.replicate (n - 20) (some c) := by
    have h := ema_replicate n 21 c (by norm_num) (by omega)
    norm_num at h
    exact h
  have h50 : sma (List.replicate n c) 50 =
      List.replicate 49 none ++ List.replicate (n - 49) (some c) := by
    have h := sma_replicate n 50 c (by norm_num) (by omega)
    norm_num at h
    exact h
  have h200s : sma (List.replicate n c) 200 =
      List.replicate 199 none ++ List.replicate (n - 199) (some c) := by
    have h := sma_replicate n 200 c (by norm_num) (by omega)
    norm_num at h
    exact h
  rw [emaInfoOf]
  simp only [hclose, hn, h9, h21, h50, h200s]
  rw [getO_pattern_some c (by omega) (by omega)]
  rw [getO_pattern_some c (by omega) (by omega)]
  rw [getO_pattern_some c (by omega) (by omega)]
  rw [getO_pattern_some c (by omega) (by omega)]
  rw [getO_pattern_some c (by omega) (by omega)]
  rw [getO_pattern_some c (by omega) (by omega)]
  rw [getQ_replicate c (by omega : n - 1 < n)]
  simp [jsGTo]

theorem macdInfoOf_flat (candles : List Candle) (n : ℕ) (c : ℚ) (hn : candles.length = n)
    (h200 : 200 ≤ n) (hclose : closesOf candles = List.replicate n c) :
    macdInfoOf candles = ⟨some 0, some 0, some 0, some 0, false, false, false, ⟨.noDiv, 0⟩⟩ := by
  have hm := macd_replicate n c (by omega)
  rw [macdInfoOf]
  simp only [hclose, hn, hm, detectMACDDivergence_replicate]
  rw [if_pos (by omega : 0 < n - 1)]
  rw [getO_pattern_some 0 (by omega) (by omega)]
  rw [getO_pattern_some 0 (by omega) (by omega)]
  rw [getO_pattern_some 0 (by omega) (by omega)]
  rw [getO_pattern_some 0 (by omega) (by omega)]
  simp [jsGTo, jsLTo]

theorem bollingerInfoOf_flat (candles : List Candle) (n : ℕ) (c : ℚ) (hn : candles.length = n)
    (h200 : 200 ≤ n) (hclose : closesOf candles = List.replicate n c) :
    bollingerInfoOf candles = ⟨some c, some c, some c, none, none, false, false, false⟩ := by
  have hb := bollingerBands_replicate n c (by omega)
  rw [bollingerInfoOf]
  simp only [hclose, hn, hb, getO_replicate_none]
  rw [getO_pattern_some c (by omega) (by omega)]
  simp

theorem stochasticInfoOf_flat (candles : List Candle) (n : ℕ) (c : ℚ) (hn : candles.length = n)
    (h200 : 200 ≤ n) (hclose : closesOf candles = List.replicate n c)
    (hhigh : highsOf candles = List.replicate n c)
    (hlow : lowsOf candles = List.replicate n c) :
    stochasticInfoOf candles = ⟨some 50, some 50, false, false, false, false⟩ := by
  have hs := stochastic_replicate n c (by omega)
  rw [stochasticInfoOf]
  simp only [hclose, hhigh, hlow, hn, hs]
  rw [getO_pattern_some 50 (by omega) (by omega)]
  rw [getO_pattern_some 50 (by omega) (by omega)]
  rw [getO_pattern_some 50 (by omega) (by omega)]
  rw [getO_pattern_some 50 (by omega) (by omega)]
  norm_num [jsGTo, jsLTo]

theorem adxInfoOf_flat (candles : List Candle) (n : ℕ) (c : ℚ) (hn : candles.length = n)
    (h200 : 200 ≤ n) (hclose : closesOf candles = List.replicate n c)
    (hhigh : highsOf candles = List.replicate n c)
    (hlow : lowsOf candles = List.replicate n c) :
    adxInfoOf candles = ⟨some 0, some 0, some 0, false, false⟩ := by
  have ha := adx_replicate n c (by omega)
  rw [adxInfoOf]
  simp only [hclose, hhigh, hlow, hn, ha]
  rw [getO_pattern_some 0 (by omega) (by omega)]
  rw [getO_pattern_some 0 (by omega) (by omega)]
  norm_num [jsGTo]

theorem vwapInfoOf_flat (candles : List Candle) (n : ℕ) (c v : ℚ) (hn : candles.length = n)
    (h200 : 200 ≤ n) (hclose : closesOf candles = List.replicate n c)
    (hhigh : highsOf candles = List.replicate n c)
    (hlow : lowsOf candles = List.replicate n c)
    (hvol : volumesOf candles = List.replicate n v) (hv : 0 < v) :
    vwapInfoOf candles = ⟨some c, false⟩ := by
  have hw := vwap_replicate n c v hv
  rw [vwapInfoOf]
  simp only [hclose, hhigh, hlow, hvol, hn, hw]
  rw [List.getElem?_replicate_of_lt (by omega : n - 1 < n)]
  rw [getQ_replicate c (by omega : n - 1 < n)]
  simp

theorem obvInfoOf_flat (candles : List Candle) (n : ℕ) (c v : ℚ) (hn : candles.length = n)
    (h200 : 200 ≤ n) (hclose : closesOf candles = List.replicate n c)
    (hvol : volumesOf candles = List.replicate n v) :
    obvInfoOf candles = ⟨some v, .falling⟩ := by
  have hob := obv_replicate n c v (by omega)
  rw [obvInfoOf]
  simp only [hclose, hvol, hn, hob]
  rw [List.getElem?_replicate_of_lt (by omega : n - 1 < n)]
  rw [if_pos (by omega : 5 < n)]
  rw [getQ_replicate v (by omega : n - 1 - 5 < n), getQ_replicate v (by omega : n - 1 < n)]
  rw [if_neg (lt_irrefl v)]

/-- C5: on a flat candle series (all highs, lows and closes equal to one
positive price, constant positive volume, at least 200 bars so every
indicator is warmed up) the pipeline produces no undefined values: the RSI
value is defined (the zero-average-loss branch yields 100), Bollinger %B and
bandwidth stay null because the band width is zero, and the resulting action
classifies as NEUTRAL. -/
theorem flat_series_neutral (candles : List Candle) (n : ℕ) (c v : ℚ)
    (hn : candles.length = n) (h200 : 200 ≤ n) (_hc : 0 < c) (hv : 0 < v)
    (hclose : closesOf candles = List.replicate n c)
    (hhigh : highsOf candles = List.replicate n c)
    (hlow : lowsOf candles = List.replicate n c)
    (hvol : volumesOf candles = List.replicate n v) :
    (computeAll candles).rsi.value.isSome = true ∧
    (computeAll candles).bollinger.percentB = none ∧
    (computeAll candles).bollinger.bandwidth = none ∧
    (getSignalType (calculateConfluenceScore
      (getIndicatorSignals (computeAll candles)))).action = SignalAction.neutral := by
  have hrsi := rsiInfoOf_flat candles n c hn h200 hclose
  have hema := emaInfoOf_flat candles n c hn h200 hclose
  have hmacd := macdInfoOf_flat candles n c hn h200 hclose
  have hboll := bollingerInfoOf_flat candles n c hn h200 hclose
  have hstoch := stochasticInfoOf_flat candles n c hn h200 hclose hhigh hlow
  have hadx := adxInfoOf_flat candles n c hn h200 hclose hhigh hlow
  have hvw := vwapInfoOf_flat candles n c v hn h200 hclose hhigh hlow hvol hv
  have hobv := obvInfoOf_flat candles n c v hn h200 hclose hvol
  refine ⟨?_, ?_, ?_, ?_⟩
  · rw [show (computeAll candles).rsi = rsiInfoOf candles from rfl, hrsi]
    rfl
  · rw [show (computeAll candles).bollinger = bollingerInfoOf candles from rfl, hboll]
  · rw [show (computeAll candles).bollinger = bollingerInfoOf candles from rfl, hboll]
  · have hsv : getIndicatorSignals (computeAll candles) =
        ⟨-1, 0, 0, 0, 0, -(1/2), 0, -(4/5)⟩ := by
      rw [getIndicatorSignals]
      rw [show (computeAll candles).rsi = rsiInfoOf candles from rfl, hrsi,
        show (computeAll candles).macd = macdInfoOf candles from rfl, hmacd,
        show (computeAll candles).bollinger = bollingerInfoOf candles from rfl, hboll,
        show (computeAll candles).stochastic = stochasticInfoOf candles from rfl, hstoch,
        show (computeAll candles).ema = emaInfoOf candles from rfl, hema,
        show (computeAll candles).adx = adxInfoOf candles from rfl, hadx,
        show (computeAll candles).obv = obvInfoOf candles from rfl, hobv,
        show (computeAll candles).vwap = vwapInfoOf candles from rfl, hvw]
      norm_num [max_def]
      decide
    rw [hsv]
    rw [show calculateConfluenceScore ⟨-1, 0, 0, 0, 0, -(1/2), 0, -(4/5)⟩ = -26 from by
      rw [calculateConfluenceScore, weightedSum, TOTAL_WEIGHT, jsRound]
      norm_num]
    rfl

/-- 200 flat candles (all prices 1, volume 1). -/
def candlesC5 : List Candle := List.replicate 200 ⟨0, 1, 1, 1, 1, 1⟩

theorem flat_series_neutral_witness :
    (computeAll candlesC5).rsi.value.isSome = true ∧
    (computeAll candlesC5).bollinger.percentB = none ∧
    (computeAll candlesC5).bollinger.bandwidth = none ∧
    (getSignalType (calculateConfluenceScore
      (getIndicatorSignals (computeAll candlesC5)))).action = SignalAction.neutral :=
  flat_series_neutral candlesC5 200 1 1 (by rw [candlesC5, List.length_replicate])
    (by norm_num) (by norm_num)
    (by norm_num)
    (by rw [closesOf, candlesC5, List.map_replicate])
    (by rw [highsOf, candlesC5, List.map_replicate])
    (by rw [lowsOf, candlesC5, List.map_replicate])
    (by rw [volumesOf, candlesC5, List.map_replicate])
